import Mathlib

/-!
# NetworkConnection (networked-aframe), verified against its specification

Shallow embedding of `src/NetworkConnection.js`.

* A JavaScript object used as a dictionary is an `Obj`: its own properties, with unique names,
  in enumeration order.  The objects of the class are plain objects (`{}`), so the two names
  that a plain object treats specially are modelled: an assignment to "__proto__" creates no
  own property (on `dataChannelSubs`, whose values are functions, it replaces the prototype,
  which the session records), and an own property named "hasOwnProperty" is what a call
  `o.hasOwnProperty(k)` reaches instead of the inherited method.  The class is strict-mode
  code: an assignment that cannot be made throws a TypeError.
* Every call that leaves the class (adapter commands, entity sink, `NAF.log`,
  `document.body.dispatchEvent`, application callbacks) is recorded, in program order, in a
  list of `Effect`s.  External calls are taken to return normally and not to re-enter the
  connection.
* The two adapter queries (`getConnectStatus`, `shouldStartConnectionTo`) are answered by an
  `Adapter` record: the answers the installed adapter gives during the call at hand.  What
  the values and functions handed to the class do when the class calls them where it meant
  to call `hasOwnProperty` is answered by the `Adapter` (occupant values) and by a `Host`
  record (handlers, inherited properties).
* Peer ids and data types are arbitrary strings.  Functions are identified by identity and
  carry no property named "hasOwnProperty".
-/

namespace NAF

/-! ## JavaScript objects as dictionaries -/

/-- Own properties of a JavaScript object, in enumeration order; names are unique. -/
structure Obj (V : Type) where
  entries : List (String × V)
  nodup : (entries.map Prod.fst).Nodup

namespace Obj

variable {V : Type}

instance [DecidableEq V] : DecidableEq (Obj V) := fun a b =>
  match a, b with
  | ⟨ea, _⟩, ⟨eb, _⟩ =>
    if h : ea = eb then isTrue (by subst h; rfl)
    else isFalse (fun hab => h (by cases hab; rfl))

/-- The object literal `{}`. -/
def empty : Obj V := ⟨[], List.nodup_nil⟩

/-- Property names visited by `for (var k in o)`. -/
def keys (o : Obj V) : List String := o.entries.map Prod.fst

/-- Whether `k` is an own property of `o`: the answer of the method
`Object.prototype.hasOwnProperty` applied to `o` and `k`. -/
def hasOwnProperty (o : Obj V) (k : String) : Bool := decide (k ∈ o.keys)

/-- The value of the own property `k` of `o`, `none` when `o` has no own property `k`.  It is
the read `o[k]` wherever `k` is an own property. -/
def get (o : Obj V) (k : String) : Option V := o.entries.lookup k

/-- What the call `o.hasOwnProperty(k)` reaches on a plain object. -/
inductive HasOwnCall (V : Type) where
  /-- The method inherited from `Object.prototype`, with its answer. -/
  | inherited (answer : Bool)
  /-- The value of the own property named "hasOwnProperty", which the call tries to apply to
  `k`. -/
  | shadowed (value : V)

/-- The call `o.hasOwnProperty(k)`: the property "hasOwnProperty" is looked up on `o` first,
then on its prototype chain. -/
def callHasOwnProperty (o : Obj V) (k : String) : HasOwnCall V :=
  match o.get "hasOwnProperty" with
  | some value => .shadowed value
  | none => .inherited (o.hasOwnProperty k)

/-- Entries after the assignment `o[k] = v`: an existing property keeps its place. -/
def setEntries (k : String) (v : V) : List (String × V) → List (String × V)
  | [] => [(k, v)]
  | e :: rest => if e.1 = k then (k, v) :: rest else e :: setEntries k v rest

theorem keys_setEntries (k : String) (v : V) (l : List (String × V)) :
    (setEntries k v l).map Prod.fst =
      if k ∈ l.map Prod.fst then l.map Prod.fst else l.map Prod.fst ++ [k] := by
  induction l with
  | nil => simp [setEntries]
  | cons e rest ih =>
    by_cases h : e.1 = k
    · simp [setEntries, h]
    · have h' : ¬ k = e.1 := fun hk => h hk.symm
      by_cases hm : k ∈ rest.map Prod.fst
      · simp only [setEntries, h, if_false, List.map_cons, ih, hm, if_true, List.mem_cons,
          or_true]
      · simp only [setEntries, h, if_false, List.map_cons, ih, hm, List.mem_cons, h',
          or_self, List.cons_append]

theorem nodup_setEntries (k : String) (v : V) (l : List (String × V))
    (h : (l.map Prod.fst).Nodup) : ((setEntries k v l).map Prod.fst).Nodup := by
  rw [keys_setEntries]
  split
  · exact h
  · rename_i hk
    exact List.Nodup.append h (List.nodup_singleton k) (by
      intro a ha hb
      simp only [List.mem_singleton] at hb
      exact hk (hb ▸ ha))

/-- The assignment `o[k] = v` on a plain object.  For "__proto__", unless `o` has an own
property of that name, the assignment runs the setter inherited from `Object.prototype`: it
creates no own property (a primitive value is ignored, an object value becomes the prototype
of `o`). -/
def set (o : Obj V) (k : String) (v : V) : Obj V :=
  if k = "__proto__" ∧ o.hasOwnProperty "__proto__" = false then o
  else ⟨setEntries k v o.entries, nodup_setEntries k v o.entries o.nodup⟩

theorem nodup_filter_keys (p : String × V → Bool) (l : List (String × V))
    (h : (l.map Prod.fst).Nodup) : ((l.filter p).map Prod.fst).Nodup :=
  List.Nodup.sublist (List.Sublist.map _ (List.filter_sublist l)) h

/-- The statement `delete o[k]`. -/
def delete (o : Obj V) (k : String) : Obj V :=
  ⟨o.entries.filter (fun e => !(e.1 == k)), nodup_filter_keys _ o.entries o.nodup⟩

end Obj

/-! ## Calls that leave the class -/

/-- Functions stored in `dataChannelSubs`, by identity: the two bound entity methods created
by `setupDefaultDataSubscriptions`, or a function of the application.  A function carries no
property named "hasOwnProperty". -/
inductive Handler where
  | updateEntity
  | removeRemoteEntity
  | callback (id : Nat)
  deriving DecidableEq, Repr

/-- Commands sent to `this.adapter`. -/
inductive AdapterCall (δ : Type) where
  | setServerUrl (serverUrl : String)
  | setApp (appName : String)
  | setRoom (roomName : String)
  | setWebRtcOptions (audio video datachannel : Bool)
  | setServerConnectListeners
  | setDataChannelListeners
  | setRoomOccupantListener
  | connect
  | closeStreamConnection (id : String)
  | startStreamConnection (id : String)
  | broadcastData (dataType : String) (data : δ)
  | broadcastDataGuaranteed (dataType : String) (data : δ)
  | sendData (toClientId dataType : String) (data : δ)
  | sendDataGuaranteed (toClientId dataType : String) (data : δ)
  deriving DecidableEq, Repr

/-- One observable action of the class, in program order. -/
inductive Effect (δ : Type) where
  /-- The call `NAF.log.write(...args)`. -/
  | logWrite (args : List String)
  /-- The call `NAF.log.error(...args)`. -/
  | logError (args : List String)
  /-- A command on `this.adapter`. -/
  | adapter (c : AdapterCall δ)
  /-- The call `this.entities.completeSync()`. -/
  | completeSync
  /-- The call `this.entities.removeEntitiesFromClient(clientId)`. -/
  | removeEntitiesFromClient (clientId : String)
  /-- The call `this.dataChannelSubs[dataType](fromClientId, dataType, data)`. -/
  | handler (h : Handler) (fromClientId dataType : String) (data : δ)
  /-- The call `document.body.dispatchEvent(e)`, `e` an event of the given type. -/
  | dispatchEvent (type : String)
  /-- A call `callback()` of a function handed to `onConnect`. -/
  | callback (cb : Nat)
  /-- The call `this.dataChannelSubs.hasOwnProperty(dataType)` of line 198 when it reaches the
  handler `h` stored under the name "hasOwnProperty": the call `h(dataType)`. -/
  | handlerTest (h : Handler) (dataType : String)
  /-- The call `newOccupantList.hasOwnProperty(id)` of line 94 when it reaches a function
  stored in the new list under the name "hasOwnProperty": the call of that function on `id`. -/
  | occupantTest (id : String)
  /-- The call `this.dataChannelSubs[dataType](fromClientId, dataType, data)` of line 199 when
  `dataType` is no own property and the prototype chain holds a function under that name. -/
  | inheritedCall (fromClientId dataType : String) (data : δ)
  deriving DecidableEq, Repr

/-- Modelled from the spec: the constants of `./adapters/INetworkAdapter` (not shipped with the
class); §6 gives `connectionStatus(peerId) -> Connected|NotConnected`. -/
inductive ConnectStatus where
  | IS_CONNECTED
  | NOT_CONNECTED
  deriving DecidableEq, Repr

/-- Answers of the installed adapter to the two queries the class makes, and what an
occupant value it delivered does when the class calls it: `occupantAsFunction m` is `none`
when `m` is not a function (any data value), else the truthiness of what `m` returns on a
name. -/
structure Adapter (μ : Type) where
  getConnectStatus : String → ConnectStatus
  shouldStartConnectionTo : μ → Bool
  occupantAsFunction : μ → Option (String → Bool) := fun _ => none

/-! ## State -/

/-- Globals the class reads and writes: `NAF.app`, `NAF.room`, `NAF.clientId`, and the
listeners of type 'connected' that `onConnect` has put on `document.body`. -/
structure Globals where
  app : Option String
  room : Option String
  clientId : Option String
  connectedListeners : List Nat
  deriving DecidableEq, Repr

/-- Fields of a `NetworkConnection` instance, with the globals it touches.
`dataChannelSubsProto` is the function that an assignment to "__proto__" has made the
prototype of the object `dataChannelSubs`; it is `none` while the prototype is
`Object.prototype`. -/
structure NetworkConnection (μ : Type) where
  dataChannelSubs : Obj Handler
  connectedClients : Obj μ
  activeDataChannels : Obj Bool
  connected : Bool
  globals : Globals
  dataChannelSubsProto : Option Handler := none

instance {μ : Type} [DecidableEq μ] : DecidableEq (NetworkConnection μ) := fun a b =>
  match a, b with
  | ⟨a1, a2, a3, a4, a5, a6⟩, ⟨b1, b2, b3, b4, b5, b6⟩ =>
    if h : a1 = b1 ∧ a2 = b2 ∧ a3 = b3 ∧ a4 = b4 ∧ a5 = b5 ∧ a6 = b6 then
      isTrue (by obtain ⟨h1, h2, h3, h4, h5, h6⟩ := h; subst h1 h2 h3 h4 h5 h6; rfl)
    else isFalse (fun hab => h (by cases hab; exact ⟨rfl, rfl, rfl, rfl, rfl, rfl⟩))

/-- How a call ends for its caller: it returns (every method here returns `undefined`), or an
exception reaches the caller. -/
inductive Completion where
  | returned
  | threw (error : String)
  deriving DecidableEq, Repr

/-- Result of running one method. -/
structure Outcome (μ δ : Type) where
  state : NetworkConnection μ
  effects : List (Effect δ)
  completion : Completion

/-- Result of a query method: the value it returns, or the exception it throws. -/
inductive Answer (α : Type) where
  | returned (value : α)
  | threw (error : String)
  deriving DecidableEq, Repr

/-- What lies outside the class and is reached through the prototype chain of
`dataChannelSubs`.  `handlerTest h dataType` is the truthiness of what the handler `h`
returns when line 198 calls it on the data type (it is stored under "hasOwnProperty").
`inherited dataType` tells what line 199 finds under a name that is no own property, along
the prototype chain: `none` when it is `undefined` or not a function, else how the call of
that function completes.  `readOnly f name` tells whether the function `f`, once it is the
prototype of `dataChannelSubs`, makes an assignment to `name` fail: it holds or inherits
`name` as a read-only property or under a setter that throws (as functions do for "name" and
"length"). -/
structure Host where
  handlerTest : Handler → String → Bool
  inherited : String → Option Completion
  readOnly : Handler → String → Bool

/-- `ReservedDataType.Update`. -/
def ReservedDataType.Update : String := "u"

/-- `ReservedDataType.Remove`. -/
def ReservedDataType.Remove : String := "r"

namespace NetworkConnection

variable {μ δ : Type}

/-- Lines 26-34. -/
def setupDefaultDataSubscriptions : Obj Handler :=
  ((Obj.empty.set ReservedDataType.Update Handler.updateEntity).set
    ReservedDataType.Remove Handler.removeRemoteEntity)

/-- Lines 7-20: `new NetworkConnection(networkEntities)` in a page whose globals are `g`. -/
def constructor (g : Globals) : NetworkConnection μ :=
  { dataChannelSubs := setupDefaultDataSubscriptions
    connectedClients := Obj.empty
    activeDataChannels := Obj.empty
    connected := false
    globals := g
    dataChannelSubsProto := none }

/-- Lines 36-63; `enableAudio` is `none` when the argument is omitted (default `false`). -/
def connect (s : NetworkConnection μ) (serverUrl appName roomName : String)
    (enableAudio : Option Bool) : Outcome μ δ :=
  { state := { s with globals := { s.globals with app := some appName, room := some roomName } }
    effects :=
      [ .adapter (.setServerUrl serverUrl),
        .adapter (.setApp appName),
        .adapter (.setRoom roomName),
        .adapter (.setWebRtcOptions (enableAudio.getD false) false true),
        .adapter .setServerConnectListeners,
        .adapter .setDataChannelListeners,
        .adapter .setRoomOccupantListener,
        .adapter .connect ]
    completion := .returned }

/-- The call `document.body.addEventListener('connected', callback, false)`: a listener already
registered is not added again. -/
def addConnectedListener (g : Globals) (callback : Nat) : Globals :=
  if callback ∈ g.connectedListeners then g
  else { g with connectedListeners := g.connectedListeners ++ [callback] }

/-- Lines 65-71. -/
def onConnect (s : NetworkConnection μ) (callback : Nat) : Outcome μ δ :=
  if s.connected then
    { state := s, effects := [.callback callback], completion := .returned }
  else
    { state := { s with globals := addConnectedListener s.globals callback }
      effects := []
      completion := .returned }

/-- Lines 73-79; dispatching the event runs the registered 'connected' listeners. -/
def connectSuccess (s : NetworkConnection μ) (clientId : String) : Outcome μ δ :=
  { state := { s with connected := true, globals := { s.globals with clientId := some clientId } }
    effects :=
      [.logWrite ["Networked-Aframe Client ID:", clientId], .dispatchEvent "connected"]
        ++ s.globals.connectedListeners.map .callback
    completion := .returned }

/-- Lines 81-84. -/
def connectFailure (s : NetworkConnection μ) (errorCode _message : String) : Outcome μ δ :=
  { state := { s with connected := false }
    effects := [.logError [errorCode, "failure to login"]]
    completion := .returned }

/-- Lines 95-99: the body of the loop once `clientFound` is known. -/
def disconnectingBody (id : String) (clientFound : Bool) : List (Effect δ) :=
  if !clientFound then
    [ .logWrite ["Closing stream to ", id],
      .adapter (.closeStreamConnection id),
      .dispatchEvent "clientDisconnected" ]
  else []

/-- Lines 93-100: the loop of `checkForDisconnectingClients` over the names of the old list,
with the effects made and how the loop ends.  Line 94 calls `newOccupantList.hasOwnProperty`:
when the new list has an own property of that name, its value is called instead of the
inherited method, which throws a TypeError unless the value is a function. -/
def disconnectingLoop (A : Adapter μ) (newOccupantList : Obj μ) :
    List String → List (Effect δ) × Completion
  | [] => ([], .returned)
  | id :: rest =>
    match newOccupantList.callHasOwnProperty id with
    | .inherited clientFound =>
      let r := disconnectingLoop A newOccupantList rest
      (disconnectingBody id clientFound ++ r.1, r.2)
    | .shadowed value =>
      match A.occupantAsFunction value with
      | none => ([], .threw "TypeError: newOccupantList.hasOwnProperty is not a function")
      | some f =>
        let r := disconnectingLoop A newOccupantList rest
        (.occupantTest id :: disconnectingBody id (f id) ++ r.1, r.2)

/-- Lines 92-101. -/
def checkForDisconnectingClients (A : Adapter μ) (s : NetworkConnection μ)
    (oldOccupantList newOccupantList : Obj μ) : Outcome μ δ :=
  let r : List (Effect δ) × Completion :=
    disconnectingLoop A newOccupantList oldOccupantList.keys
  { state := s, effects := r.1, completion := r.2 }

/-- Lines 130-132. -/
def isConnectedTo (A : Adapter μ) (clientId : String) : Bool :=
  A.getConnectStatus clientId == ConnectStatus.IS_CONNECTED

/-- Lines 126-128. -/
def isNewClient (A : Adapter μ) (clientId : String) : Bool :=
  !isConnectedTo A clientId

/-- Lines 104-111: the loop of `checkForConnectingClients`; an entry is `(id, occupantList[id])`. -/
def connectingLoop (A : Adapter μ) : List (String × μ) → List (Effect δ)
  | [] => []
  | (id, occupant) :: rest =>
    let startConnection := isNewClient A id && A.shouldStartConnectionTo occupant
    (if startConnection then
        [ .logWrite ["Opening stream to ", id],
          .adapter (.startStreamConnection id),
          .dispatchEvent "clientConnected" ]
      else []) ++ connectingLoop A rest

/-- Lines 103-112. -/
def checkForConnectingClients (A : Adapter μ) (s : NetworkConnection μ) (occupantList : Obj μ) :
    Outcome μ δ :=
  { state := s
    effects := connectingLoop A occupantList.entries
    completion := .returned }

/-- Lines 86-90; an exception thrown by line 87 ends the call there. -/
def occupantsReceived (A : Adapter μ) (s : NetworkConnection μ) (occupantList : Obj μ) :
    Outcome μ δ :=
  let r1 : Outcome μ δ := checkForDisconnectingClients A s s.connectedClients occupantList
  match r1.completion with
  | .threw error => { state := r1.state, effects := r1.effects, completion := .threw error }
  | .returned =>
    let s1 := { r1.state with connectedClients := occupantList }
    let r2 : Outcome μ δ := checkForConnectingClients A s1 occupantList
    { state := r2.state, effects := r1.effects ++ r2.effects, completion := .returned }

/-- Lines 114-116. -/
def getConnectedClients (s : NetworkConnection μ) : Obj μ := s.connectedClients

/-- Lines 118-120. -/
def isConnected (s : NetworkConnection μ) : Bool := s.connected

/-- Lines 122-124. -/
def isMineAndConnected (s : NetworkConnection μ) (clientId : String) : Bool :=
  s.globals.clientId == some clientId

/-- Lines 134-139. -/
def dataChannelOpen (s : NetworkConnection μ) (clientId : String) : Outcome μ δ :=
  { state := { s with activeDataChannels := s.activeDataChannels.set clientId true }
    effects :=
      [ .logWrite ["Opened data channel from " ++ clientId],
        .completeSync,
        .dispatchEvent "dataChannelOpened" ]
    completion := .returned }

/-- Lines 141-146. -/
def dataChannelClosed (s : NetworkConnection μ) (clientId : String) : Outcome μ δ :=
  { state := { s with activeDataChannels := s.activeDataChannels.set clientId false }
    effects :=
      [ .logWrite ["Closed data channel from " ++ clientId],
        .removeEntitiesFromClient clientId,
        .dispatchEvent "dataChannelClosed" ]
    completion := .returned }

/-- Lines 148-150: `a && b` is `a` when `a` is `false`, else `b`; `none` stands for
`undefined`.  The values of `activeDataChannels` are booleans, so once it has an own property
named "hasOwnProperty" the call of line 149 throws a TypeError. -/
def hasActiveDataChannel (s : NetworkConnection μ) (clientId : String) :
    Answer (Option Bool) :=
  match s.activeDataChannels.callHasOwnProperty clientId with
  | .inherited true => .returned (s.activeDataChannels.get clientId)
  | .inherited false => .returned (some false)
  | .shadowed _ =>
    .threw "TypeError: this.activeDataChannels.hasOwnProperty is not a function"

/-- Truthiness of a value that is a boolean or `undefined`. -/
def truthy : Option Bool → Bool
  | some b => b
  | none => false

/-- Lines 152-154. -/
def broadcastData (s : NetworkConnection μ) (dataType : String) (data : δ) : Outcome μ δ :=
  { state := s, effects := [.adapter (.broadcastData dataType data)], completion := .returned }

/-- Lines 156-158. -/
def broadcastDataGuaranteed (s : NetworkConnection μ) (dataType : String) (data : δ) :
    Outcome μ δ :=
  { state := s
    effects := [.adapter (.broadcastDataGuaranteed dataType data)]
    completion := .returned }

/-- Lines 160-170; an exception thrown by `hasActiveDataChannel` ends the call. -/
def sendData (s : NetworkConnection μ) (toClientId dataType : String) (data : δ)
    (guaranteed : Bool) : Outcome μ δ :=
  match hasActiveDataChannel s toClientId with
  | .threw error => { state := s, effects := [], completion := .threw error }
  | .returned active =>
    if truthy active then
      if guaranteed then
        { state := s
          effects := [.adapter (.sendDataGuaranteed toClientId dataType data)]
          completion := .returned }
      else
        { state := s
          effects := [.adapter (.sendData toClientId dataType data)]
          completion := .returned }
    else
      { state := s, effects := [], completion := .returned }

/-- Lines 172-174. -/
def sendDataGuaranteed (s : NetworkConnection μ) (toClientId dataType : String) (data : δ) :
    Outcome μ δ :=
  sendData s toClientId dataType data true

/-- Lines 192-195. -/
def isReservedDataType (dataType : String) : Bool :=
  dataType == ReservedDataType.Update || dataType == ReservedDataType.Remove

/-- Whether the assignment `this.dataChannelSubs[dataType] = callback` is refused: the name
is no own property, and the function that has become the prototype holds it read-only. -/
def assignRefused (E : Host) (s : NetworkConnection μ) (dataType : String) : Bool :=
  match s.dataChannelSubsProto with
  | some proto => !s.dataChannelSubs.hasOwnProperty dataType && E.readOnly proto dataType
  | none => false

/-- Line 181: the assignment `this.dataChannelSubs[dataType] = callback`, in the strict-mode
code of a class.  "__proto__", unless it is an own property, runs the setter inherited from
`Object.prototype`: the function becomes the prototype and no own property is created.  A
name that is no own property and that the prototype chain holds read-only cannot be assigned:
a TypeError is thrown.  Any other assignment creates or overwrites the own property. -/
def assignSubscription (E : Host) (s : NetworkConnection μ) (dataType : String)
    (callback : Handler) : Outcome μ δ :=
  if dataType = "__proto__" ∧ s.dataChannelSubs.hasOwnProperty "__proto__" = false then
    { state := { s with dataChannelSubsProto := some callback }
      effects := []
      completion := .returned }
  else
    if assignRefused E s dataType then
      { state := s
        effects := []
        completion := .threw ("TypeError: Cannot assign to read only property " ++ dataType) }
    else
      { state := { s with dataChannelSubs := s.dataChannelSubs.set dataType callback }
        effects := []
        completion := .returned }

/-- Lines 176-182. -/
def subscribeToDataChannel (E : Host) (s : NetworkConnection μ) (dataType : String)
    (callback : Handler) : Outcome μ δ :=
  if isReservedDataType dataType then
    { state := s
      effects :=
        [.logError ["NetworkConnection@subscribeToDataChannel: " ++ dataType
          ++ " is a reserved dataType. Choose another"]]
      completion := .returned }
  else
    assignSubscription E s dataType callback

/-- Lines 184-190. -/
def unsubscribeFromDataChannel (s : NetworkConnection μ) (dataType : String) : Outcome μ δ :=
  if isReservedDataType dataType then
    { state := s
      effects :=
        [.logError ["NetworkConnection@unsubscribeFromDataChannel: " ++ dataType
          ++ " is a reserved dataType. Choose another"]]
      completion := .returned }
  else
    { state := { s with dataChannelSubs := s.dataChannelSubs.delete dataType }
      effects := []
      completion := .returned }

/-- Line 201. -/
def notSubscribedError (dataType : String) : Effect δ :=
  .logError ["NetworkConnection@receivedData: " ++ dataType
    ++ " has not been subscribed to yet. Call subscribeToDataChannel()"]

/-- Line 199: the call `this.dataChannelSubs[dataType](fromClientId, dataType, data)`, after
the effects `before` of line 198.  An own property is a handler and is called; a name that
is no own property is looked up along the prototype chain. -/
def dispatchToHandler (E : Host) (s : NetworkConnection μ) (before : List (Effect δ))
    (fromClientId dataType : String) (data : δ) : Outcome μ δ :=
  match s.dataChannelSubs.get dataType with
  | some h =>
    { state := s
      effects := before ++ [.handler h fromClientId dataType data]
      completion := .returned }
  | none =>
    match E.inherited dataType with
    | some completion =>
      { state := s
        effects := before ++ [.inheritedCall fromClientId dataType data]
        completion := completion }
    | none =>
      { state := s
        effects := before
        completion := .threw "TypeError: this.dataChannelSubs[dataType] is not a function" }

/-- Lines 197-203.  Line 198 calls `this.dataChannelSubs.hasOwnProperty`: when a handler is
subscribed under the data type "hasOwnProperty", that handler is called on `dataType` and the
truthiness of what it returns decides the branch. -/
def receivedData (E : Host) (s : NetworkConnection μ) (fromClientId dataType : String)
    (data : δ) : Outcome μ δ :=
  match s.dataChannelSubs.callHasOwnProperty dataType with
  | .inherited true => dispatchToHandler E s [] fromClientId dataType data
  | .inherited false =>
    { state := s, effects := [notSubscribedError dataType], completion := .returned }
  | .shadowed h =>
    if E.handlerTest h dataType then
      dispatchToHandler E s [.handlerTest h dataType] fromClientId dataType data
    else
      { state := s
        effects := [.handlerTest h dataType, notSubscribedError dataType]
        completion := .returned }

/-! ## Runs -/

/-- One call of an effectful method of the class, by the application or by the adapter through
the listeners registered in `connect`.  The occupant calls carry the answers the adapter gives
while they run, and `receivedData` the answers of its host.  A call that throws leaves the
session in the state it had reached. -/
inductive Call (μ δ : Type) where
  | setupDefaultDataSubscriptions
  | connect (serverUrl appName roomName : String) (enableAudio : Option Bool)
  | onConnect (callback : Nat)
  | connectSuccess (clientId : String)
  | connectFailure (errorCode message : String)
  | occupantsReceived (A : Adapter μ) (occupantList : Obj μ)
  | checkForDisconnectingClients (A : Adapter μ) (oldOccupantList newOccupantList : Obj μ)
  | checkForConnectingClients (A : Adapter μ) (occupantList : Obj μ)
  | dataChannelOpen (clientId : String)
  | dataChannelClosed (clientId : String)
  | broadcastData (dataType : String) (data : δ)
  | broadcastDataGuaranteed (dataType : String) (data : δ)
  | sendData (toClientId dataType : String) (data : δ) (guaranteed : Bool)
  | sendDataGuaranteed (toClientId dataType : String) (data : δ)
  | subscribeToDataChannel (E : Host) (dataType : String) (callback : Handler)
  | unsubscribeFromDataChannel (dataType : String)
  | receivedData (E : Host) (fromClientId dataType : String) (data : δ)

/-- Run one call. -/
def step (s : NetworkConnection μ) : Call μ δ → Outcome μ δ
  | .setupDefaultDataSubscriptions =>
    { state :=
        { s with dataChannelSubs := setupDefaultDataSubscriptions, dataChannelSubsProto := none }
      effects := []
      completion := .returned }
  | .connect serverUrl appName roomName enableAudio =>
    connect s serverUrl appName roomName enableAudio
  | .onConnect callback => onConnect s callback
  | .connectSuccess clientId => connectSuccess s clientId
  | .connectFailure errorCode message => connectFailure s errorCode message
  | .occupantsReceived A occupantList => occupantsReceived A s occupantList
  | .checkForDisconnectingClients A o n => checkForDisconnectingClients A s o n
  | .checkForConnectingClients A occupantList => checkForConnectingClients A s occupantList
  | .dataChannelOpen clientId => dataChannelOpen s clientId
  | .dataChannelClosed clientId => dataChannelClosed s clientId
  | .broadcastData dataType data => broadcastData s dataType data
  | .broadcastDataGuaranteed dataType data => broadcastDataGuaranteed s dataType data
  | .sendData toClientId dataType data guaranteed => sendData s toClientId dataType data guaranteed
  | .sendDataGuaranteed toClientId dataType data => sendDataGuaranteed s toClientId dataType data
  | .subscribeToDataChannel E dataType callback => subscribeToDataChannel E s dataType callback
  | .unsubscribeFromDataChannel dataType => unsubscribeFromDataChannel s dataType
  | .receivedData E fromClientId dataType data => receivedData E s fromClientId dataType data

/-- Run a sequence of calls, one after the other; the effects are concatenated. -/
def run (s : NetworkConnection μ) : List (Call μ δ) → NetworkConnection μ × List (Effect δ)
  | [] => (s, [])
  | c :: rest =>
    let r := step s c
    let rr := run r.state rest
    (rr.1, r.effects ++ rr.2)

/-- The data-channel event a call stands for, if any: the peer, and `true` for an open. -/
def Call.channelEvent : Call μ δ → Option (String × Bool)
  | .dataChannelOpen clientId => some (clientId, true)
  | .dataChannelClosed clientId => some (clientId, false)
  | _ => none

/-- The data-channel events for peer `p` in a sequence of calls, oldest first (`true` for an
open, `false` for a close). -/
def channelEventsFor (p : String) (calls : List (Call μ δ)) : List Bool :=
  (calls.filterMap Call.channelEvent).filterMap (fun e => if e.1 = p then some e.2 else none)

/-- The occupant list a call delivers through `occupantsReceived`, if it is such a call. -/
def Call.snapshot : Call μ δ → Option (Obj μ)
  | .occupantsReceived _ occupantList => some occupantList
  | _ => none

/-- The occupant list delivered last in a sequence of calls; `{}` when none was delivered. -/
def lastSnapshot (calls : List (Call μ δ)) : Obj μ :=
  ((calls.filterMap Call.snapshot).getLast?).getD Obj.empty

/-- Whether every `occupantsReceived` call of a run returns rather than throws. -/
def deliveriesReturn (s : NetworkConnection μ) : List (Call μ δ) → Bool
  | [] => true
  | c :: rest =>
    (match c with
      | .occupantsReceived _ _ => decide ((step s c).completion = Completion.returned)
      | _ => true)
    && deliveriesReturn (step s c).state rest

/-- Type of the event dispatched by `dataChannelOpen` (`true`) or `dataChannelClosed`. -/
def channelEventType (isOpen : Bool) : String :=
  if isOpen then "dataChannelOpened" else "dataChannelClosed"

/-- Number of `dataChannelOpen` calls (`open = true`) or `dataChannelClosed` calls
(`open = false`) in a sequence of calls. -/
def channelCallCount (isOpen : Bool) (calls : List (Call μ δ)) : Nat :=
  ((calls.filterMap Call.channelEvent).filter (fun e => e.2 == isOpen)).length

end NetworkConnection

/-! ## Observations on effect lists -/

section Observations

variable {δ : Type}

/-- Peer ids of the `adapter.closeStreamConnection` calls, in order. -/
def closeCalls : List (Effect δ) → List String
  | [] => []
  | .adapter (.closeStreamConnection id) :: rest => id :: closeCalls rest
  | _ :: rest => closeCalls rest

/-- Peer ids of the `adapter.startStreamConnection` calls, in order. -/
def startCalls : List (Effect δ) → List String
  | [] => []
  | .adapter (.startStreamConnection id) :: rest => id :: startCalls rest
  | _ :: rest => startCalls rest

/-- Number of events of the given type dispatched on `document.body`. -/
def eventCount (type : String) : List (Effect δ) → Nat
  | [] => 0
  | .dispatchEvent t :: rest => (if t = type then 1 else 0) + eventCount type rest
  | _ :: rest => eventCount type rest

/-- Number of calls `callback()` of the function `cb` handed to `onConnect`. -/
def callbackCount (cb : Nat) : List (Effect δ) → Nat
  | [] => 0
  | .callback c :: rest => (if c = cb then 1 else 0) + callbackCount cb rest
  | _ :: rest => callbackCount cb rest

/-- A departure action: a `closeStreamConnection` call or a 'clientDisconnected' event. -/
def isDepartureEffect : Effect δ → Bool
  | .adapter (.closeStreamConnection _) => true
  | .dispatchEvent t => t == "clientDisconnected"
  | _ => false

/-- An arrival action: a `startStreamConnection` call or a 'clientConnected' event. -/
def isArrivalEffect : Effect δ → Bool
  | .adapter (.startStreamConnection _) => true
  | .dispatchEvent t => t == "clientConnected"
  | _ => false

/-- The effects of one departure, as written in lines 96-98. -/
def departureEffects (id : String) : List (Effect δ) :=
  [ .logWrite ["Closing stream to ", id],
    .adapter (.closeStreamConnection id),
    .dispatchEvent "clientDisconnected" ]

/-- The effects of one arrival acted on, as written in lines 107-109. -/
def arrivalEffects (id : String) : List (Effect δ) :=
  [ .logWrite ["Opening stream to ", id],
    .adapter (.startStreamConnection id),
    .dispatchEvent "clientConnected" ]

/-- Entries acted on by `checkForConnectingClients`: the test of line 105. -/
def startsConnection {μ : Type} (A : Adapter μ) (e : String × μ) : Bool :=
  NetworkConnection.isNewClient A e.1 && A.shouldStartConnectionTo e.2

end Observations

/-! ## Concrete sessions -/

section Examples

/-- Page globals before anything has run. -/
def exGlobals : Globals := { app := none, room := none, clientId := none, connectedListeners := [] }

/-- A host whose handlers return `undefined`, whose prototype chain holds no function under
the names asked for, and whose functions hold "name", "length", "arguments" and "caller"
read-only. -/
def exHost : Host :=
  { handlerTest := fun _ _ => false
    inherited := fun _ => none
    readOnly := fun _ name => decide (name ∈ ["name", "length", "arguments", "caller"]) }

/-- A host whose handlers return a truthy value when called on a data type alone. -/
def exHostTruthy : Host :=
  { handlerTest := fun _ _ => true
    inherited := fun _ => none
    readOnly := fun _ name => decide (name ∈ ["name", "length", "arguments", "caller"]) }

/-- Occupant list `{A: true}`; the value of an occupant is its shouldInitiate flag. -/
def exOccupantsA : Obj Bool := Obj.empty.set "A" true

/-- Occupant list `{A: false}`. -/
def exOccupantsA0 : Obj Bool := Obj.empty.set "A" false

/-- Occupant list `{B: true}`. -/
def exOccupantsB : Obj Bool := Obj.empty.set "B" true

/-- Occupant list `{A: true, B: true}`. -/
def exOccupantsAB : Obj Bool := (Obj.empty.set "A" true).set "B" true

/-- A session just constructed, then given `old` as `connectedClients`. -/
def exSession (old : Obj Bool) : NetworkConnection Bool :=
  { (NetworkConnection.constructor exGlobals : NetworkConnection Bool) with
    connectedClients := old }

/-- An adapter with no stream established to anyone; it initiates when the occupant says so. -/
def exAdapterNoStream : Adapter Bool :=
  { getConnectStatus := fun _ => ConnectStatus.NOT_CONNECTED
    shouldStartConnectionTo := fun occupant => occupant }

/-- An adapter that reports every peer connected. -/
def exAdapterAllConnected : Adapter Bool :=
  { getConnectStatus := fun _ => ConnectStatus.IS_CONNECTED
    shouldStartConnectionTo := fun occupant => occupant }

/-- An adapter with a stream to A only. -/
def exAdapterStreamToA : Adapter Bool :=
  { getConnectStatus := fun id =>
      if id = "A" then ConnectStatus.IS_CONNECTED else ConnectStatus.NOT_CONNECTED
    shouldStartConnectionTo := fun occupant => occupant }

/-- A fresh session in which the data channel of P has been opened. -/
def exSessionOpenP : NetworkConnection Bool :=
  (NetworkConnection.dataChannelOpen (exSession Obj.empty) "P" : Outcome Bool String).state

/-- A fresh session in which the data channel of P has been opened, then closed. -/
def exSessionClosedP : NetworkConnection Bool :=
  (NetworkConnection.dataChannelClosed exSessionOpenP "P" : Outcome Bool String).state

/-- A fresh session after `connectSuccess("me")`. -/
def exSessionConnected : NetworkConnection Bool :=
  (NetworkConnection.connectSuccess (exSession Obj.empty) "me" : Outcome Bool String).state

/-- A fresh, not yet connected session on which `onConnect` was called with callback 5. -/
def exSessionWaiting : NetworkConnection Bool :=
  (NetworkConnection.onConnect (exSession Obj.empty) 5 : Outcome Bool String).state

/-- A fresh session in which handler 1 was subscribed to the data type "chat". -/
def exSessionChat : NetworkConnection Bool :=
  (NetworkConnection.subscribeToDataChannel exHost (exSession Obj.empty) "chat"
    (Handler.callback 1) :
    Outcome Bool String).state

/-- Occupant list `{hasOwnProperty: true}`: a single peer, whose id is "hasOwnProperty". -/
def exOccupantsShadow : Obj Bool := Obj.empty.set "hasOwnProperty" true

/-- A fresh session in which handler 0 was subscribed to the data type "hasOwnProperty". -/
def exSessionShadowSubs : NetworkConnection Bool :=
  (NetworkConnection.subscribeToDataChannel exHost (exSession Obj.empty) "hasOwnProperty"
    (Handler.callback 0) : Outcome Bool String).state

/-- A fresh session in which the data channel of the peer "hasOwnProperty" has been opened. -/
def exSessionShadowChannels : NetworkConnection Bool :=
  (NetworkConnection.dataChannelOpen (exSession Obj.empty) "hasOwnProperty" :
    Outcome Bool String).state

/-- Two deliveries: `{A: true}`, then `{A: true, B: true}`. -/
def exDeliveries : List (NetworkConnection.Call Bool String) :=
  [ NetworkConnection.Call.occupantsReceived exAdapterNoStream exOccupantsA,
    NetworkConnection.Call.occupantsReceived exAdapterNoStream exOccupantsAB ]

end Examples

/-! ## Lemmas on objects -/

namespace Obj

variable {V : Type}

theorem lookup_eq_some_iff (l : List (String × V)) (h : (l.map Prod.fst).Nodup) (k : String)
    (v : V) : l.lookup k = some v ↔ (k, v) ∈ l := by
  induction l with
  | nil => simp
  | cons e rest ih =>
    obtain ⟨k1, v1⟩ := e
    rw [List.map_cons, List.nodup_cons] at h
    by_cases hk : k = k1
    · subst hk
      have hnot : ∀ w, (k, w) ∉ rest := fun w hw =>
        h.1 (List.mem_map.mpr ⟨(k, w), hw, rfl⟩)
      simp [List.lookup, hnot, eq_comm]
    · have hb : (k == k1) = false := by simpa using hk
      simp [List.lookup, hb, ih h.2, hk]

theorem lookup_isSome_iff (l : List (String × V)) (k : String) :
    (l.lookup k).isSome = true ↔ k ∈ l.map Prod.fst := by
  induction l with
  | nil => simp
  | cons e rest ih =>
    obtain ⟨k1, v1⟩ := e
    by_cases hk : k = k1
    · subst hk
      simp [List.lookup]
    · have hb : (k == k1) = false := by simpa using hk
      simp only [List.lookup, hb, ih, List.map_cons, List.mem_cons, hk, false_or]

theorem lookup_setEntries_self (k : String) (v : V) (l : List (String × V)) :
    (setEntries k v l).lookup k = some v := by
  induction l with
  | nil => simp [setEntries, List.lookup]
  | cons e rest ih =>
    by_cases h : e.1 = k
    · simp [setEntries, h, List.lookup]
    · have hb : (k == e.1) = false := by simpa using fun hk : k = e.1 => h hk.symm
      simp [setEntries, h, List.lookup, hb, ih]

theorem lookup_setEntries_ne (k : String) (v : V) (l : List (String × V)) (k2 : String)
    (hne : k2 ≠ k) : (setEntries k v l).lookup k2 = l.lookup k2 := by
  have hb : (k2 == k) = false := by simpa using hne
  induction l with
  | nil => simp [setEntries, List.lookup, hb]
  | cons e rest ih =>
    by_cases h : e.1 = k
    · have hb2 : (k2 == e.1) = false := by rw [h]; exact hb
      simp [setEntries, h, List.lookup, hb, hb2]
    · simp only [setEntries, h, if_false, List.lookup, ih]

theorem get_eq_some_iff (o : Obj V) (k : String) (v : V) :
    o.get k = some v ↔ (k, v) ∈ o.entries :=
  lookup_eq_some_iff o.entries o.nodup k v

theorem hasOwnProperty_iff_get_isSome (o : Obj V) (k : String) :
    o.hasOwnProperty k = true ↔ (o.get k).isSome = true := by
  simp only [hasOwnProperty, keys, get, decide_eq_true_eq, lookup_isSome_iff]

theorem set_proto (o : Obj V) (v : V) (h : o.hasOwnProperty "__proto__" = false) :
    o.set "__proto__" v = o := by
  simp [set, h]

theorem entries_set_of (o : Obj V) (k : String) (v : V)
    (hk : k ≠ "__proto__" ∨ o.hasOwnProperty "__proto__" = true) :
    (o.set k v).entries = setEntries k v o.entries := by
  rcases hk with hk | hk
  · simp [set, hk]
  · simp [set, hk]

theorem entries_set (o : Obj V) (k : String) (v : V) (hk : k ≠ "__proto__") :
    (o.set k v).entries = setEntries k v o.entries :=
  entries_set_of o k v (Or.inl hk)

theorem get_set_self_of (o : Obj V) (k : String) (v : V)
    (hk : k ≠ "__proto__" ∨ o.hasOwnProperty "__proto__" = true) :
    (o.set k v).get k = some v := by
  simp only [get, entries_set_of o k v hk]
  exact lookup_setEntries_self k v o.entries

theorem get_set_self (o : Obj V) (k : String) (v : V) (hk : k ≠ "__proto__") :
    (o.set k v).get k = some v :=
  get_set_self_of o k v (Or.inl hk)

theorem get_set_ne (o : Obj V) (k : String) (v : V) (k2 : String) (hne : k2 ≠ k) :
    (o.set k v).get k2 = o.get k2 := by
  by_cases hk : k = "__proto__" ∧ o.hasOwnProperty "__proto__" = false
  · obtain ⟨hk1, hk2⟩ := hk
    subst hk1
    rw [set_proto o v hk2]
  · have hk2 : k ≠ "__proto__" ∨ o.hasOwnProperty "__proto__" = true := by
      by_cases h1 : k = "__proto__"
      · right
        cases h2 : o.hasOwnProperty "__proto__" with
        | true => rfl
        | false => exact absurd ⟨h1, h2⟩ hk
      · exact Or.inl h1
    simp only [get, entries_set_of o k v hk2]
    exact lookup_setEntries_ne k v o.entries k2 hne

theorem hasOwnProperty_setEntries (o : Obj V) (k : String) (v : V) (k2 : String) :
    decide (k2 ∈ (setEntries k v o.entries).map Prod.fst) =
      (decide (k2 = k) || o.hasOwnProperty k2) := by
  simp only [hasOwnProperty, keys, keys_setEntries]
  by_cases hm : k ∈ o.entries.map Prod.fst
  · by_cases hk : k2 = k
    · subst hk; simp [hm]
    · simp [hm, hk]
  · by_cases hk : k2 = k
    · subst hk; simp [hm]
    · simp [hm, hk]

theorem hasOwnProperty_set (o : Obj V) (k : String) (v : V) (k2 : String) :
    (o.set k v).hasOwnProperty k2 =
      ((decide (k2 = k) && !decide (k = "__proto__")) || o.hasOwnProperty k2) := by
  by_cases hp : k = "__proto__"
  · subst hp
    cases hown : o.hasOwnProperty "__proto__" with
    | false => simp [set_proto o v hown]
    | true =>
      have he := entries_set_of o "__proto__" v (Or.inr hown)
      have h1 : (o.set "__proto__" v).hasOwnProperty k2 =
          decide (k2 ∈ (setEntries "__proto__" v o.entries).map Prod.fst) := by
        simp only [hasOwnProperty, keys, he]
      rw [h1, hasOwnProperty_setEntries]
      by_cases hk : k2 = "__proto__"
      · subst hk; simp [hown]
      · simp [hk]
  · have h1 : (o.set k v).hasOwnProperty k2 =
        decide (k2 ∈ (setEntries k v o.entries).map Prod.fst) := by
      simp only [hasOwnProperty, keys, entries_set o k v hp]
    rw [h1, hasOwnProperty_setEntries]
    simp [hp]

theorem hasOwnProperty_set_self (o : Obj V) (k : String) (v : V) (hk : k ≠ "__proto__") :
    (o.set k v).hasOwnProperty k = true := by
  simp [hasOwnProperty_set, hk]

theorem hasOwnProperty_set_of_has (o : Obj V) (k : String) (v : V) (k2 : String)
    (h : o.hasOwnProperty k2 = true) : (o.set k v).hasOwnProperty k2 = true := by
  simp [hasOwnProperty_set, h]

theorem get_eq_none_iff (o : Obj V) (k : String) :
    o.get k = none ↔ o.hasOwnProperty k = false := by
  rw [← Bool.not_eq_true, hasOwnProperty_iff_get_isSome]
  cases o.get k <;> simp

theorem callHasOwnProperty_of_clean (o : Obj V) (k : String)
    (h : o.hasOwnProperty "hasOwnProperty" = false) :
    o.callHasOwnProperty k = HasOwnCall.inherited (o.hasOwnProperty k) := by
  have hg : o.get "hasOwnProperty" = none := (get_eq_none_iff o _).mpr h
  simp [callHasOwnProperty, hg]

theorem hasOwnProperty_delete (o : Obj V) (k k2 : String) :
    (o.delete k).hasOwnProperty k2 = (!decide (k2 = k) && o.hasOwnProperty k2) := by
  simp only [hasOwnProperty, keys, delete]
  by_cases hk : k2 = k
  · subst hk
    simp
  · have : k2 ∈ (o.entries.filter (fun e => !(e.1 == k))).map Prod.fst ↔
        k2 ∈ o.entries.map Prod.fst := by
      simp only [List.mem_map, List.mem_filter]
      constructor
      · rintro ⟨e, ⟨he, _⟩, rfl⟩; exact ⟨e, he, rfl⟩
      · rintro ⟨e, he, rfl⟩; exact ⟨e, ⟨he, by simpa using hk⟩, rfl⟩
    simp [hk, this]

theorem lookup_filter_ne (l : List (String × V)) (k k2 : String) (hne : k2 ≠ k) :
    (l.filter (fun e => !(e.1 == k))).lookup k2 = l.lookup k2 := by
  induction l with
  | nil => rfl
  | cons e rest ih =>
    obtain ⟨k1, v1⟩ := e
    by_cases h1 : k1 = k
    · subst h1
      have hb : (k2 == k1) = false := by simpa using hne
      simp [List.filter, List.lookup, hb, ih]
    · have hf : (!(k1 == k)) = true := by simpa using h1
      simp only [List.filter, hf, List.lookup, ih]

theorem get_delete_ne (o : Obj V) (k k2 : String) (hne : k2 ≠ k) :
    (o.delete k).get k2 = o.get k2 :=
  lookup_filter_ne o.entries k k2 hne

theorem ext_entries {a b : Obj V} (h : a.entries = b.entries) : a = b := by
  cases a; cases b; cases h; rfl

theorem delete_of_not_has (o : Obj V) (k : String) (h : o.hasOwnProperty k = false) :
    o.delete k = o := by
  apply ext_entries
  simp only [delete]
  rw [List.filter_eq_self]
  intro e he
  have : e.1 ≠ k := by
    intro hk
    simp only [hasOwnProperty, keys, decide_eq_false_iff_not] at h
    exact h (hk ▸ List.mem_map_of_mem Prod.fst he)
  simpa using this

end Obj

/-! ## Lemmas on effect lists -/

section ObservationLemmas

variable {μ δ : Type}

theorem closeCalls_append (a b : List (Effect δ)) :
    closeCalls (a ++ b) = closeCalls a ++ closeCalls b := by
  induction a with
  | nil => rfl
  | cons e rest ih =>
    cases e with
    | adapter c => cases c <;> simp [closeCalls, ih]
    | _ => simp [closeCalls, ih]

theorem startCalls_append (a b : List (Effect δ)) :
    startCalls (a ++ b) = startCalls a ++ startCalls b := by
  induction a with
  | nil => rfl
  | cons e rest ih =>
    cases e with
    | adapter c => cases c <;> simp [startCalls, ih]
    | _ => simp [startCalls, ih]

theorem eventCount_append (type : String) (a b : List (Effect δ)) :
    eventCount type (a ++ b) = eventCount type a + eventCount type b := by
  induction a with
  | nil => simp [eventCount]
  | cons e rest ih =>
    cases e with
    | dispatchEvent t => simp [eventCount, ih, Nat.add_assoc]
    | _ => simp [eventCount, ih]

open NetworkConnection

theorem closeCalls_flatMap_departure (ks : List String) :
    closeCalls (ks.flatMap (departureEffects : String → List (Effect δ))) = ks := by
  induction ks with
  | nil => rfl
  | cons id rest ih =>
    rw [List.flatMap_cons, closeCalls_append, ih]
    simp [departureEffects, closeCalls]

theorem startCalls_flatMap_departure (ks : List String) :
    startCalls (ks.flatMap (departureEffects : String → List (Effect δ))) = [] := by
  induction ks with
  | nil => rfl
  | cons id rest ih =>
    rw [List.flatMap_cons, startCalls_append, ih]
    simp [departureEffects, startCalls]

theorem eventCount_flatMap_departure (type : String) (ks : List String) :
    eventCount type (ks.flatMap (departureEffects : String → List (Effect δ))) =
      if type = "clientDisconnected" then ks.length else 0 := by
  induction ks with
  | nil => simp [eventCount]
  | cons id rest ih =>
    rw [List.flatMap_cons, eventCount_append, ih]
    by_cases h : type = "clientDisconnected"
    · subst h
      simp [departureEffects, eventCount, Nat.add_comm]
    · have h' : ¬ "clientDisconnected" = type := fun e => h e.symm
      simp [departureEffects, eventCount, h, h']

theorem closeCalls_flatMap_arrival (ks : List String) :
    closeCalls (ks.flatMap (arrivalEffects : String → List (Effect δ))) = [] := by
  induction ks with
  | nil => rfl
  | cons id rest ih =>
    rw [List.flatMap_cons, closeCalls_append, ih]
    simp [arrivalEffects, closeCalls]

theorem startCalls_flatMap_arrival (ks : List String) :
    startCalls (ks.flatMap (arrivalEffects : String → List (Effect δ))) = ks := by
  induction ks with
  | nil => rfl
  | cons id rest ih =>
    rw [List.flatMap_cons, startCalls_append, ih]
    simp [arrivalEffects, startCalls]

theorem eventCount_flatMap_arrival (type : String) (ks : List String) :
    eventCount type (ks.flatMap (arrivalEffects : String → List (Effect δ))) =
      if type = "clientConnected" then ks.length else 0 := by
  induction ks with
  | nil => simp [eventCount]
  | cons id rest ih =>
    rw [List.flatMap_cons, eventCount_append, ih]
    by_cases h : type = "clientConnected"
    · subst h
      simp [arrivalEffects, eventCount, Nat.add_comm]
    · have h' : ¬ "clientConnected" = type := fun e => h e.symm
      simp [arrivalEffects, eventCount, h, h']

theorem connectingLoop_eq (A : Adapter μ) (es : List (String × μ)) :
    (connectingLoop A es : List (Effect δ)) =
      ((es.filter (startsConnection A)).map Prod.fst).flatMap arrivalEffects := by
  induction es with
  | nil => rfl
  | cons e rest ih =>
    obtain ⟨id, occupant⟩ := e
    by_cases h : (isNewClient A id && A.shouldStartConnectionTo occupant) = true
    · simp [connectingLoop, startsConnection, h, ih, arrivalEffects]
    · simp only [Bool.not_eq_true] at h
      simp [connectingLoop, startsConnection, h, ih]

theorem disconnectingLoop_of_clean (A : Adapter μ) (new : Obj μ) (ks : List String)
    (hclean : new.hasOwnProperty "hasOwnProperty" = false) :
    (disconnectingLoop A new ks : List (Effect δ) × Completion) =
      ((ks.filter (fun id => !new.hasOwnProperty id)).flatMap departureEffects,
        Completion.returned) := by
  induction ks with
  | nil => rfl
  | cons id rest ih =>
    simp only [disconnectingLoop, Obj.callHasOwnProperty_of_clean new id hclean, ih]
    by_cases h : new.hasOwnProperty id = true
    · simp [disconnectingBody, h]
    · simp only [Bool.not_eq_true] at h
      simp [disconnectingBody, h, departureEffects]

/-- Whatever the new list holds, the loop of line 93 makes no arrival action, opens no
stream, and dispatches only 'clientDisconnected' events. -/
theorem disconnectingLoop_no_arrival (A : Adapter μ) (new : Obj μ) (ks : List String) :
    (∀ e ∈ (disconnectingLoop A new ks : List (Effect δ) × Completion).1,
        isArrivalEffect e = false)
    ∧ startCalls (disconnectingLoop A new ks : List (Effect δ) × Completion).1 = []
    ∧ (∀ type : String, type ≠ "clientDisconnected" →
        eventCount type (disconnectingLoop A new ks : List (Effect δ) × Completion).1 = 0) := by
  have hbody : ∀ (id : String) (found : Bool),
      (∀ e ∈ (disconnectingBody id found : List (Effect δ)), isArrivalEffect e = false)
      ∧ startCalls (disconnectingBody id found : List (Effect δ)) = []
      ∧ (∀ type : String, type ≠ "clientDisconnected" →
          eventCount type (disconnectingBody id found : List (Effect δ)) = 0) := by
    intro id found
    cases found
    · refine ⟨?_, ?_, ?_⟩
      · intro e he
        simp only [disconnectingBody, Bool.not_false, if_true, List.mem_cons,
          List.mem_singleton, List.not_mem_nil, or_false] at he
        rcases he with h | h | h <;> subst h <;> simp [isArrivalEffect]
      · simp [disconnectingBody, startCalls]
      · intro type ht
        have ht2 : ¬ "clientDisconnected" = type := fun e => ht e.symm
        simp [disconnectingBody, eventCount, ht2]
    · refine ⟨?_, ?_, ?_⟩
      · intro e he
        simp [disconnectingBody] at he
      · simp [disconnectingBody, startCalls]
      · intro type _
        simp [disconnectingBody, eventCount]
  induction ks with
  | nil =>
    refine ⟨?_, rfl, ?_⟩
    · intro e he
      simp [disconnectingLoop] at he
    · intro type _
      rfl
  | cons id rest ih =>
    obtain ⟨ih1, ih2, ih3⟩ := ih
    cases hc : new.callHasOwnProperty id with
    | inherited found =>
      obtain ⟨hb1, hb2, hb3⟩ := hbody id found
      simp only [disconnectingLoop, hc]
      refine ⟨?_, ?_, ?_⟩
      · intro e he
        rcases List.mem_append.mp he with h | h
        · exact hb1 e h
        · exact ih1 e h
      · rw [startCalls_append, hb2, ih2]
        rfl
      · intro type ht
        rw [eventCount_append, hb3 type ht, ih3 type ht]
    | shadowed value =>
      cases hf : A.occupantAsFunction value with
      | none =>
        simp only [disconnectingLoop, hc, hf]
        refine ⟨?_, rfl, ?_⟩
        · intro e he
          simp at he
        · intro type _
          rfl
      | some f =>
        obtain ⟨hb1, hb2, hb3⟩ := hbody id (f id)
        simp only [disconnectingLoop, hc, hf]
        refine ⟨?_, ?_, ?_⟩
        · intro e he
          rcases List.mem_cons.mp he with h | h
          · subst h
            rfl
          · rcases List.mem_append.mp h with h2 | h2
            · exact hb1 e h2
            · exact ih1 e h2
        · change startCalls (disconnectingBody id (f id) ++
            (disconnectingLoop A new rest : List (Effect δ) × Completion).1) = []
          rw [startCalls_append, hb2, ih2]
          rfl
        · intro type ht
          change eventCount type (disconnectingBody id (f id) ++
            (disconnectingLoop A new rest : List (Effect δ) × Completion).1) = 0
          rw [eventCount_append, hb3 type ht, ih3 type ht]

/-- The effects of `occupantsReceived`: those of the loop of line 93, followed, unless that
loop threw, by those of the arrivals. -/
theorem occupantsReceived_effects_general (A : Adapter μ) (s : NetworkConnection μ)
    (new : Obj μ) :
    (occupantsReceived A s new : Outcome μ δ).effects =
      (disconnectingLoop A new s.connectedClients.keys : List (Effect δ) × Completion).1
        ++ (match (disconnectingLoop A new s.connectedClients.keys :
              List (Effect δ) × Completion).2 with
            | Completion.returned =>
              ((new.entries.filter (startsConnection A)).map Prod.fst).flatMap arrivalEffects
            | Completion.threw _ => []) := by
  simp only [occupantsReceived, checkForDisconnectingClients]
  cases (disconnectingLoop A new s.connectedClients.keys : List (Effect δ) × Completion).2 with
  | returned => simp [checkForConnectingClients, connectingLoop_eq]
  | threw error => simp

theorem occupantsReceived_effects (A : Adapter μ) (s : NetworkConnection μ) (new : Obj μ)
    (hclean : new.hasOwnProperty "hasOwnProperty" = false) :
    (occupantsReceived A s new : Outcome μ δ).effects =
      ((s.connectedClients.keys.filter (fun id => !new.hasOwnProperty id)).flatMap
          departureEffects)
        ++ ((new.entries.filter (startsConnection A)).map Prod.fst).flatMap arrivalEffects := by
  rw [occupantsReceived_effects_general, disconnectingLoop_of_clean A new _ hclean]

theorem occupantsReceived_of_clean (A : Adapter μ) (s : NetworkConnection μ) (new : Obj μ)
    (hclean : new.hasOwnProperty "hasOwnProperty" = false) :
    (occupantsReceived A s new : Outcome μ δ).completion = Completion.returned
    ∧ (occupantsReceived A s new : Outcome μ δ).state = { s with connectedClients := new } := by
  simp [occupantsReceived, checkForDisconnectingClients,
    disconnectingLoop_of_clean A new _ hclean, checkForConnectingClients]

/-- A call of `occupantsReceived` that returns has replaced `connectedClients`; one that
throws has left the session as it was. -/
theorem occupantsReceived_state (A : Adapter μ) (s : NetworkConnection μ) (new : Obj μ) :
    ((occupantsReceived A s new : Outcome μ δ).completion = Completion.returned →
      (occupantsReceived A s new : Outcome μ δ).state = { s with connectedClients := new })
    ∧ ((occupantsReceived A s new : Outcome μ δ).completion ≠ Completion.returned →
      (occupantsReceived A s new : Outcome μ δ).state = s) := by
  simp only [occupantsReceived, checkForDisconnectingClients]
  cases (disconnectingLoop A new s.connectedClients.keys : List (Effect δ) × Completion).2 with
  | returned => simp [checkForConnectingClients]
  | threw error => simp

theorem count_filter_keys (ks : List String) (hks : ks.Nodup) (p : String → Bool) (id : String) :
    (ks.filter p).count id = if id ∈ ks ∧ p id = true then 1 else 0 := by
  rw [List.count_eq_of_nodup (hks.filter p)]
  simp only [List.mem_filter]

theorem startCalls_occupantsReceived (A : Adapter μ) (s : NetworkConnection μ) (new : Obj μ)
    (hclean : new.hasOwnProperty "hasOwnProperty" = false) :
    startCalls (occupantsReceived A s new : Outcome μ δ).effects =
      (new.entries.filter (startsConnection A)).map Prod.fst := by
  rw [occupantsReceived_effects A s new hclean, startCalls_append, startCalls_flatMap_departure,
    startCalls_flatMap_arrival, List.nil_append]

theorem closeCalls_occupantsReceived (A : Adapter μ) (s : NetworkConnection μ) (new : Obj μ)
    (hclean : new.hasOwnProperty "hasOwnProperty" = false) :
    closeCalls (occupantsReceived A s new : Outcome μ δ).effects =
      s.connectedClients.keys.filter (fun id => !new.hasOwnProperty id) := by
  rw [occupantsReceived_effects A s new hclean, closeCalls_append, closeCalls_flatMap_departure,
    closeCalls_flatMap_arrival, List.append_nil]

theorem eventCount_occupantsReceived (type : String) (A : Adapter μ) (s : NetworkConnection μ)
    (new : Obj μ) (hclean : new.hasOwnProperty "hasOwnProperty" = false) :
    eventCount type (occupantsReceived A s new : Outcome μ δ).effects =
      (if type = "clientDisconnected" then
          (s.connectedClients.keys.filter (fun id => !new.hasOwnProperty id)).length else 0)
        + (if type = "clientConnected" then
          ((new.entries.filter (startsConnection A)).map Prod.fst).length else 0) := by
  rw [occupantsReceived_effects A s new hclean, eventCount_append, eventCount_flatMap_departure,
    eventCount_flatMap_arrival]

theorem filter_absent_self (S : Obj μ) :
    S.keys.filter (fun id => !S.hasOwnProperty id) = [] := by
  rw [List.filter_eq_nil_iff]
  intro id hid
  simp [Obj.hasOwnProperty, hid]

end ObservationLemmas

/-! ## Presence reconciliation -/

section Reconciliation

variable {μ δ : Type}

open NetworkConnection

/-- When the new list has no own property named "hasOwnProperty",
`checkForDisconnectingClients(old, new)` returns after producing, for the names of `old` that
are not names of `new`, in enumeration order, the three effects log /
`closeStreamConnection(id)` / 'clientDisconnected' event, and nothing else.  Hence the close
calls are exactly keys(old) minus keys(new), each once; there is one disconnect event per
such id; no close call names a key of `new`; and `occupantsReceived(new)` on a session whose
`connectedClients` is `old` makes the same close calls and raises the same number of
disconnect events. -/
theorem disconnecting_closes_exactly_departed (A : Adapter μ) (s : NetworkConnection μ)
    (old new : Obj μ) (hclean : new.hasOwnProperty "hasOwnProperty" = false) :
    (checkForDisconnectingClients A s old new : Outcome μ δ).effects =
        (old.keys.filter (fun id => !new.hasOwnProperty id)).flatMap departureEffects
    ∧ (checkForDisconnectingClients A s old new : Outcome μ δ).completion = Completion.returned
    ∧ closeCalls (checkForDisconnectingClients A s old new : Outcome μ δ).effects =
        old.keys.filter (fun id => !new.hasOwnProperty id)
    ∧ (∀ id : String,
        (closeCalls (checkForDisconnectingClients A s old new : Outcome μ δ).effects).count id =
          if id ∈ old.keys ∧ id ∉ new.keys then 1 else 0)
    ∧ eventCount "clientDisconnected"
          (checkForDisconnectingClients A s old new : Outcome μ δ).effects =
        (old.keys.filter (fun id => !new.hasOwnProperty id)).length
    ∧ (∀ id : String, id ∈ new.keys →
        id ∉ closeCalls (checkForDisconnectingClients A s old new : Outcome μ δ).effects)
    ∧ closeCalls
          (occupantsReceived A { s with connectedClients := old } new : Outcome μ δ).effects =
        old.keys.filter (fun id => !new.hasOwnProperty id)
    ∧ eventCount "clientDisconnected"
          (occupantsReceived A { s with connectedClients := old } new : Outcome μ δ).effects =
        (old.keys.filter (fun id => !new.hasOwnProperty id)).length := by
  have heff : (checkForDisconnectingClients A s old new : Outcome μ δ).effects =
      (old.keys.filter (fun id => !new.hasOwnProperty id)).flatMap departureEffects := by
    simp only [checkForDisconnectingClients, disconnectingLoop_of_clean A new _ hclean]
  have hcc : closeCalls (checkForDisconnectingClients A s old new : Outcome μ δ).effects =
      old.keys.filter (fun id => !new.hasOwnProperty id) := by
    rw [heff, closeCalls_flatMap_departure]
  refine ⟨heff, ?_, hcc, ?_, ?_, ?_, ?_, ?_⟩
  · simp only [checkForDisconnectingClients, disconnectingLoop_of_clean A new _ hclean]
  · intro id
    rw [hcc, count_filter_keys old.keys old.nodup]
    simp [Obj.hasOwnProperty]
  · rw [heff, eventCount_flatMap_departure, if_pos rfl]
  · intro id hid
    rw [hcc]
    simp [Obj.hasOwnProperty, hid]
  · exact closeCalls_occupantsReceived A _ new hclean
  · rw [eventCount_occupantsReceived _ A _ new hclean]
    simp

/-- Only the names of the two lists matter to `checkForDisconnectingClients`, not the values
stored under them, when the new list has no own property named "hasOwnProperty". -/
theorem disconnecting_depends_on_keys_only (A : Adapter μ) (s : NetworkConnection μ)
    (old new old2 new2 : Obj μ) (hclean : new.hasOwnProperty "hasOwnProperty" = false)
    (ho : old2.keys = old.keys) (hn : new2.keys = new.keys) :
    (checkForDisconnectingClients A s old2 new2 : Outcome μ δ).effects =
      (checkForDisconnectingClients A s old new : Outcome μ δ).effects := by
  have hclean2 : new2.hasOwnProperty "hasOwnProperty" = false := by
    simpa [Obj.hasOwnProperty, hn] using hclean
  simp only [checkForDisconnectingClients, disconnectingLoop_of_clean A new _ hclean,
    disconnectingLoop_of_clean A new2 _ hclean2, Obj.hasOwnProperty, ho, hn]

/-- C1, failing input: `old = {A: true}` and `new = {hasOwnProperty: true}` (the peer A left
and a peer whose id is "hasOwnProperty" is present).  A is a key of `old` and not of `new`,
so the claim asks for one `closeStreamConnection("A")` and one 'clientDisconnected' event.
Line 94 calls `newOccupantList.hasOwnProperty`, which here is the value `true`:
`checkForDisconnectingClients` throws a TypeError with no stream closed and no event raised,
and `occupantsReceived` throws with it, leaving `connectedClients` as it was. -/
theorem C1_failing_input :
    exOccupantsA.keys.filter (fun id => !exOccupantsShadow.hasOwnProperty id) = ["A"]
    ∧ (checkForDisconnectingClients exAdapterNoStream (exSession exOccupantsA) exOccupantsA
        exOccupantsShadow : Outcome Bool String).effects = []
    ∧ (checkForDisconnectingClients exAdapterNoStream (exSession exOccupantsA) exOccupantsA
        exOccupantsShadow : Outcome Bool String).completion =
        Completion.threw "TypeError: newOccupantList.hasOwnProperty is not a function"
    ∧ closeCalls (occupantsReceived exAdapterNoStream (exSession exOccupantsA)
        exOccupantsShadow : Outcome Bool String).effects = []
    ∧ eventCount "clientDisconnected" (occupantsReceived exAdapterNoStream
        (exSession exOccupantsA) exOccupantsShadow : Outcome Bool String).effects = 0
    ∧ (occupantsReceived exAdapterNoStream (exSession exOccupantsA) exOccupantsShadow :
        Outcome Bool String).completion =
        Completion.threw "TypeError: newOccupantList.hasOwnProperty is not a function"
    ∧ (occupantsReceived exAdapterNoStream (exSession exOccupantsA) exOccupantsShadow :
        Outcome Bool String).state.connectedClients = exOccupantsA := by
  decide

/-- C2, as stated, fails: (1) with `old = new = {A: true}` and an adapter that has no stream to
A yet, `occupantsReceived` opens a stream to A and raises 'clientConnected', although A is a
key of both lists; (2) with `old = {}`, `new = {B: true}` and an adapter that reports B
connected, nothing is opened, although B is a key of `new`, not of `old`, and should be
initiated; (3) with `old = {A: false}`, `new = {A: true}` (only the flag changed) A is acted
on. -/
theorem C2_counterexample :
    (startCalls (occupantsReceived exAdapterNoStream (exSession exOccupantsA) exOccupantsA :
        Outcome Bool String).effects = ["A"]
      ∧ eventCount "clientConnected"
          (occupantsReceived exAdapterNoStream (exSession exOccupantsA) exOccupantsA :
            Outcome Bool String).effects = 1
      ∧ (exSession exOccupantsA).connectedClients.hasOwnProperty "A" = true
      ∧ exOccupantsA.hasOwnProperty "A" = true)
    ∧ (startCalls (occupantsReceived exAdapterAllConnected (exSession Obj.empty) exOccupantsB :
        Outcome Bool String).effects = []
      ∧ (exSession Obj.empty).connectedClients.hasOwnProperty "B" = false
      ∧ exOccupantsB.get "B" = some true
      ∧ exAdapterAllConnected.shouldStartConnectionTo true = true)
    ∧ (startCalls (occupantsReceived exAdapterNoStream (exSession exOccupantsA0) exOccupantsA :
        Outcome Bool String).effects = ["A"]
      ∧ (exSession exOccupantsA0).connectedClients.get "A" = some false) := by
  decide

/-- C2, amended: in `occupantsReceived(new)` the ids given to `startStreamConnection` are, in
enumeration order and each once, the keys of `new` for which the adapter does not report
`IS_CONNECTED` and `shouldStartConnectionTo(new[id])` holds; one 'clientConnected' event is
raised per such id; the previous list takes no part in the decision.  Scenario: from `{A}` to
`{A, B}`, with a stream to A and B to be initiated, exactly one stream is opened, to B, with
one 'clientConnected' event and nothing closed.  The statement is for a new list with no
peer named "hasOwnProperty"; what line 94 does with such a list is left out here. -/
theorem C2_arrivals_decided_by_adapter (A : Adapter μ) (s : NetworkConnection μ)
    (new : Obj μ) (hclean : new.hasOwnProperty "hasOwnProperty" = false) :
    startCalls (occupantsReceived A s new : Outcome μ δ).effects =
        (new.entries.filter (startsConnection A)).map Prod.fst
    ∧ (startCalls (occupantsReceived A s new : Outcome μ δ).effects).Nodup
    ∧ (∀ id : String,
        id ∈ startCalls (occupantsReceived A s new : Outcome μ δ).effects ↔
          (id ∈ new.keys ∧ A.getConnectStatus id ≠ ConnectStatus.IS_CONNECTED ∧
            ∃ occupant, new.get id = some occupant ∧ A.shouldStartConnectionTo occupant = true))
    ∧ eventCount "clientConnected" (occupantsReceived A s new : Outcome μ δ).effects =
        (startCalls (occupantsReceived A s new : Outcome μ δ).effects).length
    ∧ (startCalls (occupantsReceived exAdapterStreamToA (exSession exOccupantsA) exOccupantsAB :
          Outcome Bool String).effects = ["B"]
        ∧ eventCount "clientConnected"
            (occupantsReceived exAdapterStreamToA (exSession exOccupantsA) exOccupantsAB :
              Outcome Bool String).effects = 1
        ∧ closeCalls
            (occupantsReceived exAdapterStreamToA (exSession exOccupantsA) exOccupantsAB :
              Outcome Bool String).effects = []) := by
  have hsc : startCalls (occupantsReceived A s new : Outcome μ δ).effects =
      (new.entries.filter (startsConnection A)).map Prod.fst := by
    rw [occupantsReceived_effects A s new hclean, startCalls_append,
      startCalls_flatMap_departure, startCalls_flatMap_arrival, List.nil_append]
  refine ⟨hsc, ?_, ?_, ?_, by decide⟩
  · rw [hsc]
    exact Obj.nodup_filter_keys _ new.entries new.nodup
  · intro id
    rw [hsc]
    simp only [List.mem_map, List.mem_filter, startsConnection, isNewClient, isConnectedTo,
      Bool.and_eq_true, Bool.not_eq_true', beq_eq_false_iff_ne, ne_eq, Obj.keys,
      Obj.get_eq_some_iff]
    constructor
    · rintro ⟨⟨k, occupant⟩, ⟨hmem, hst, hsh⟩, rfl⟩
      exact ⟨⟨(k, occupant), hmem, rfl⟩, hst, occupant, hmem, hsh⟩
    · rintro ⟨_, hst, occupant, hmem, hsh⟩
      exact ⟨(id, occupant), ⟨hmem, hst, hsh⟩, rfl⟩
  · rw [hsc, occupantsReceived_effects A s new hclean, eventCount_append,
      eventCount_flatMap_departure, eventCount_flatMap_arrival]
    simp

/-- C2 at a concrete input: `{A: true, B: true}` has no peer named "hasOwnProperty"; delivered
to a session that knows `{A}`, with a stream to A only, it opens exactly the stream to B. -/
theorem C2_arrivals_decided_by_adapter_witness :
    exOccupantsAB.hasOwnProperty "hasOwnProperty" = false
    ∧ startCalls (occupantsReceived exAdapterStreamToA (exSession exOccupantsA) exOccupantsAB :
        Outcome Bool String).effects =
        (exOccupantsAB.entries.filter (startsConnection exAdapterStreamToA)).map Prod.fst
    ∧ (exOccupantsAB.entries.filter (startsConnection exAdapterStreamToA)).map Prod.fst = ["B"] :=
  ⟨by decide,
    (C2_arrivals_decided_by_adapter exAdapterStreamToA (exSession exOccupantsA) exOccupantsAB
      (by decide)).1,
    by decide⟩

/-- C3, as stated, fails: with `connectedClients = {A: true, B: true}` already, the same list
delivered again, and an adapter that has a stream to A but not yet to B, `occupantsReceived`
calls `startStreamConnection("B")` and raises one 'clientConnected' event: the set of arrivals
acted on is not empty on a stable snapshot. -/
theorem C3_counterexample :
    (exSession exOccupantsAB).connectedClients = exOccupantsAB
    ∧ startCalls (occupantsReceived exAdapterStreamToA (exSession exOccupantsAB) exOccupantsAB :
        Outcome Bool String).effects = ["B"]
    ∧ eventCount "clientConnected"
        (occupantsReceived exAdapterStreamToA (exSession exOccupantsAB) exOccupantsAB :
          Outcome Bool String).effects = 1 := by
  decide

/-- C3, amended: `occupantsReceived(S)` on a session whose `connectedClients` is already `S`
makes no `closeStreamConnection` call, raises no 'clientDisconnected' event and leaves the
session as it was.  Streams are opened exactly for the keys of `S` that the adapter does not
report connected and wants to initiate, so the pass has no effect at all if and only if, for
every key of `S`, the adapter reports `IS_CONNECTED` or declines to initiate; this is so for
`{A, B}` when the adapter reports every peer connected.  The statement is for a list with no
peer named "hasOwnProperty"; what line 94 does with such a list is left out here. -/
theorem C3_stable_snapshot (A : Adapter μ) (s : NetworkConnection μ) (S : Obj μ)
    (hclean : S.hasOwnProperty "hasOwnProperty" = false) :
    closeCalls
        (occupantsReceived A { s with connectedClients := S } S : Outcome μ δ).effects = []
    ∧ eventCount "clientDisconnected"
        (occupantsReceived A { s with connectedClients := S } S : Outcome μ δ).effects = 0
    ∧ (occupantsReceived A { s with connectedClients := S } S : Outcome μ δ).state =
        { s with connectedClients := S }
    ∧ startCalls
        (occupantsReceived A { s with connectedClients := S } S : Outcome μ δ).effects =
        (S.entries.filter (startsConnection A)).map Prod.fst
    ∧ eventCount "clientConnected"
        (occupantsReceived A { s with connectedClients := S } S : Outcome μ δ).effects =
        ((S.entries.filter (startsConnection A)).map Prod.fst).length
    ∧ ((occupantsReceived A { s with connectedClients := S } S : Outcome μ δ).effects = [] ↔
        ∀ id occupant, S.get id = some occupant →
          A.getConnectStatus id = ConnectStatus.IS_CONNECTED ∨
            A.shouldStartConnectionTo occupant = false)
    ∧ (occupantsReceived exAdapterAllConnected (exSession exOccupantsAB) exOccupantsAB :
        Outcome Bool String).effects = [] := by
  refine ⟨?_, ?_, (occupantsReceived_of_clean A _ S hclean).2,
    startCalls_occupantsReceived A _ S hclean, ?_, ?_, by decide⟩
  · rw [closeCalls_occupantsReceived A _ S hclean]
    exact filter_absent_self S
  · rw [eventCount_occupantsReceived _ A _ S hclean]
    simp [filter_absent_self S]
  · rw [eventCount_occupantsReceived _ A _ S hclean]
    simp
  · rw [occupantsReceived_effects A _ S hclean]
    simp only [filter_absent_self S, List.flatMap_nil, List.nil_append]
    constructor
    · intro h id occupant hget
      have hmem : (id, occupant) ∈ S.entries := (Obj.get_eq_some_iff S id occupant).mp hget
      by_contra hcon
      have hst : startsConnection A (id, occupant) = true := by
        simp only [not_or, Bool.not_eq_false] at hcon
        simp [startsConnection, isNewClient, isConnectedTo, hcon.1, hcon.2]
      have hin : (id, occupant) ∈ S.entries.filter (startsConnection A) :=
        List.mem_filter.mpr ⟨hmem, hst⟩
      cases hf : S.entries.filter (startsConnection A) with
      | nil => rw [hf] at hin; exact List.not_mem_nil _ hin
      | cons e rest =>
        rw [hf] at h
        simp [arrivalEffects] at h
    · intro h
      have hf : S.entries.filter (startsConnection A) = [] := by
        rw [List.filter_eq_nil_iff]
        rintro ⟨id, occupant⟩ hmem
        have hget := (Obj.get_eq_some_iff S id occupant).mpr hmem
        rcases h id occupant hget with hc | hn
        · simp [startsConnection, isNewClient, isConnectedTo, hc]
        · simp [startsConnection, hn]
      rw [hf]
      rfl

/-- C3 at a concrete input: `{A: true, B: true}` has no peer named "hasOwnProperty"; delivered
again to a session that already holds it, it closes nothing. -/
theorem C3_stable_snapshot_witness :
    exOccupantsAB.hasOwnProperty "hasOwnProperty" = false
    ∧ closeCalls
        (occupantsReceived exAdapterStreamToA
          { exSession Obj.empty with connectedClients := exOccupantsAB } exOccupantsAB :
          Outcome Bool String).effects = [] :=
  ⟨by decide,
    (C3_stable_snapshot exAdapterStreamToA (exSession Obj.empty) exOccupantsAB (by decide)).1⟩

end Reconciliation

/-! ## What each method leaves unchanged -/

section Frames

variable {μ δ : Type}

open NetworkConnection

theorem dispatchToHandler_state (E : Host) (s : NetworkConnection μ) (before : List (Effect δ))
    (fromClientId dataType : String) (data : δ) :
    (dispatchToHandler E s before fromClientId dataType data : Outcome μ δ).state = s := by
  unfold dispatchToHandler
  split
  · rfl
  · split <;> rfl

theorem receivedData_state (E : Host) (s : NetworkConnection μ) (fromClientId dataType : String)
    (data : δ) : (receivedData E s fromClientId dataType data : Outcome μ δ).state = s := by
  unfold receivedData
  split
  · exact dispatchToHandler_state E s _ _ _ _
  · rfl
  · split
    · exact dispatchToHandler_state E s _ _ _ _
    · rfl

theorem sendData_state (s : NetworkConnection μ) (toClientId dataType : String) (data : δ)
    (guaranteed : Bool) :
    (sendData s toClientId dataType data guaranteed : Outcome μ δ).state = s := by
  unfold sendData
  split
  · rfl
  · split
    · split <;> rfl
    · rfl

theorem checkForDisconnectingClients_state (A : Adapter μ) (s : NetworkConnection μ)
    (old new : Obj μ) : (checkForDisconnectingClients A s old new : Outcome μ δ).state = s :=
  rfl

theorem occupantsReceived_state_cases (A : Adapter μ) (s : NetworkConnection μ) (new : Obj μ) :
    (occupantsReceived A s new : Outcome μ δ).state = s ∨
      (occupantsReceived A s new : Outcome μ δ).state = { s with connectedClients := new } := by
  by_cases h : (occupantsReceived A s new : Outcome μ δ).completion = Completion.returned
  · exact Or.inr ((occupantsReceived_state A s new).1 h)
  · exact Or.inl ((occupantsReceived_state A s new).2 h)

/-- The three ways `subscribeToDataChannel` can leave the session: as it was (reserved data
type, or assignment refused), with a new prototype for `dataChannelSubs` ("__proto__"), or
with the handler bound. -/
theorem subscribeToDataChannel_state_cases (E : Host) (s : NetworkConnection μ)
    (dataType : String) (callback : Handler) :
    (subscribeToDataChannel E s dataType callback : Outcome μ δ).state = s
    ∨ (subscribeToDataChannel E s dataType callback : Outcome μ δ).state =
        { s with dataChannelSubsProto := some callback }
    ∨ (isReservedDataType dataType = false ∧
        (subscribeToDataChannel E s dataType callback : Outcome μ δ).state =
          { s with dataChannelSubs := s.dataChannelSubs.set dataType callback }) := by
  by_cases hr : isReservedDataType dataType = true
  · exact Or.inl (by simp [subscribeToDataChannel, hr])
  · have hr0 : isReservedDataType dataType = false := by simpa using hr
    by_cases hp : dataType = "__proto__" ∧ s.dataChannelSubs.hasOwnProperty "__proto__" = false
    · exact Or.inr (Or.inl (by
        simp only [subscribeToDataChannel, hr0, assignSubscription, if_pos hp]
        simp))
    · by_cases hb : assignRefused E s dataType = true
      · exact Or.inl (by
          simp only [subscribeToDataChannel, hr0, assignSubscription, if_neg hp, hb]
          simp)
      · exact Or.inr (Or.inr ⟨hr0, by
          simp only [subscribeToDataChannel, hr0, assignSubscription, if_neg hp, hb]
          simp⟩)

theorem subscribeToDataChannel_frame (E : Host) (s : NetworkConnection μ)
    (dataType : String) (callback : Handler) :
    (subscribeToDataChannel E s dataType callback : Outcome μ δ).state.connectedClients =
        s.connectedClients
    ∧ (subscribeToDataChannel E s dataType callback : Outcome μ δ).state.activeDataChannels =
        s.activeDataChannels
    ∧ (subscribeToDataChannel E s dataType callback : Outcome μ δ).state.connected = s.connected
    ∧ (subscribeToDataChannel E s dataType callback : Outcome μ δ).state.globals = s.globals := by
  rcases subscribeToDataChannel_state_cases E s dataType callback with h | h | ⟨_, h⟩ <;>
    rw [h] <;> exact ⟨rfl, rfl, rfl, rfl⟩

theorem subscribeToDataChannel_effects (E : Host) (s : NetworkConnection μ)
    (dataType : String) (callback : Handler) :
    (subscribeToDataChannel E s dataType callback : Outcome μ δ).effects =
      if isReservedDataType dataType then
        [Effect.logError ["NetworkConnection@subscribeToDataChannel: " ++ dataType
          ++ " is a reserved dataType. Choose another"]]
      else [] := by
  by_cases hr : isReservedDataType dataType = true
  · simp [subscribeToDataChannel, hr]
  · have hr0 : isReservedDataType dataType = false := by simpa using hr
    by_cases hp : dataType = "__proto__" ∧ s.dataChannelSubs.hasOwnProperty "__proto__" = false
    · simp only [subscribeToDataChannel, hr0, assignSubscription, if_pos hp]
      simp
    · by_cases hb : assignRefused E s dataType = true
      · simp only [subscribeToDataChannel, hr0, assignSubscription, if_neg hp, hb]
        simp
      · simp only [subscribeToDataChannel, hr0, assignSubscription, if_neg hp, hb]
        simp

/-- With `Object.prototype` as prototype, a data type that is neither reserved nor
"__proto__" is bound by `subscribeToDataChannel`. -/
theorem subscribeToDataChannel_binds (E : Host) (s : NetworkConnection μ)
    (dataType : String) (callback : Handler) (hr : isReservedDataType dataType = false)
    (hp : dataType ≠ "__proto__") (hproto : s.dataChannelSubsProto = none) :
    (subscribeToDataChannel E s dataType callback : Outcome μ δ) =
      { state := { s with dataChannelSubs := s.dataChannelSubs.set dataType callback }
        effects := []
        completion := Completion.returned } := by
  simp [subscribeToDataChannel, assignSubscription, assignRefused, hr, hp, hproto]

theorem unsubscribeFromDataChannel_state (s : NetworkConnection μ) (dataType : String) :
    (unsubscribeFromDataChannel s dataType : Outcome μ δ).state =
      if isReservedDataType dataType then s
      else { s with dataChannelSubs := s.dataChannelSubs.delete dataType } := by
  unfold unsubscribeFromDataChannel
  split <;> rfl

theorem onConnect_state (s : NetworkConnection μ) (callback : Nat) :
    (onConnect s callback : Outcome μ δ).state =
      if s.connected then s
      else { s with globals := addConnectedListener s.globals callback } := by
  unfold onConnect
  split <;> rfl

end Frames

/-! ## Subscription registry -/

section Registry

variable {μ δ : Type}

open NetworkConnection

theorem get_setupDefault_update :
    setupDefaultDataSubscriptions.get ReservedDataType.Update = some Handler.updateEntity := by
  decide

theorem get_setupDefault_remove :
    setupDefaultDataSubscriptions.get ReservedDataType.Remove =
      some Handler.removeRemoteEntity := by
  decide

theorem ne_update_of_not_reserved {t : String} (h : isReservedDataType t = false) :
    ReservedDataType.Update ≠ t := by
  intro e
  subst e
  simp [isReservedDataType] at h

theorem ne_remove_of_not_reserved {t : String} (h : isReservedDataType t = false) :
    ReservedDataType.Remove ≠ t := by
  intro e
  subst e
  simp [isReservedDataType] at h

/-- Reading a reserved data type gives the same value before and after any call that is not
`setupDefaultDataSubscriptions`; after that one it gives the default handler. -/
theorem step_reserved_get (s : NetworkConnection μ) (c : Call μ δ) (t : String)
    (ht : t = ReservedDataType.Update ∨ t = ReservedDataType.Remove) :
    (step s c).state.dataChannelSubs.get t = s.dataChannelSubs.get t ∨
      (step s c).state.dataChannelSubs.get t = setupDefaultDataSubscriptions.get t := by
  cases c with
  | setupDefaultDataSubscriptions => exact Or.inr rfl
  | subscribeToDataChannel E dataType callback =>
    left
    simp only [step]
    rcases subscribeToDataChannel_state_cases E s dataType callback with h | h | ⟨hr, h⟩
    · rw [h]
    · rw [h]
    · rw [h]
      apply Obj.get_set_ne
      rcases ht with h2 | h2
      · rw [h2]; exact ne_update_of_not_reserved hr
      · rw [h2]; exact ne_remove_of_not_reserved hr
  | unsubscribeFromDataChannel dataType =>
    left
    cases hr : isReservedDataType dataType with
    | true => simp [step, unsubscribeFromDataChannel, hr]
    | false =>
      simp only [step, unsubscribeFromDataChannel, hr]
      apply Obj.get_delete_ne
      rcases ht with h | h
      · rw [h]; exact ne_update_of_not_reserved hr
      · rw [h]; exact ne_remove_of_not_reserved hr
  | onConnect callback =>
    left
    cases hc : s.connected <;> simp [step, onConnect, hc]
  | sendData toClientId dataType data guaranteed =>
    left
    simp only [step, sendData_state]
  | sendDataGuaranteed toClientId dataType data =>
    left
    simp only [step, sendDataGuaranteed, sendData_state]
  | receivedData E fromClientId dataType data =>
    left
    simp only [step, receivedData_state]
  | occupantsReceived A occupantList =>
    left
    simp only [step]
    rcases occupantsReceived_state_cases A s occupantList with h | h <;> rw [h]
  | _ => exact Or.inl rfl

theorem run_reserved_get (s : NetworkConnection μ) (calls : List (Call μ δ)) (t : String)
    (ht : t = ReservedDataType.Update ∨ t = ReservedDataType.Remove)
    (hs : s.dataChannelSubs.get t = setupDefaultDataSubscriptions.get t) :
    (run s calls).1.dataChannelSubs.get t = setupDefaultDataSubscriptions.get t := by
  induction calls generalizing s with
  | nil => exact hs
  | cons c rest ih =>
    simp only [run]
    apply ih
    rcases step_reserved_get s c t ht with h | h
    · rw [h, hs]
    · exact h

/-- C4, as stated, fails: subscribing to the reserved data type 'u' (`ReservedDataType.Update`)
and unsubscribing from 'r' (`ReservedDataType.Remove`) return to the caller like any other
call, with no exception; the only trace of the rejection is one `NAF.log.error` line.  And the
strings "update" and "remove" themselves are not reserved: `subscribeToDataChannel("update", h)`
binds `h`, and `unsubscribeFromDataChannel("remove")` logs nothing. -/
theorem C4_counterexample :
    (subscribeToDataChannel exHost (exSession Obj.empty) "u" (Handler.callback 7) :
        Outcome Bool String).completion = Completion.returned
    ∧ (subscribeToDataChannel exHost (exSession Obj.empty) "u" (Handler.callback 7) :
        Outcome Bool String).effects =
        [Effect.logError ["NetworkConnection@subscribeToDataChannel: u is a reserved dataType. Choose another"]]
    ∧ (unsubscribeFromDataChannel (exSession Obj.empty) "r" :
        Outcome Bool String).completion = Completion.returned
    ∧ (unsubscribeFromDataChannel (exSession Obj.empty) "r" :
        Outcome Bool String).effects =
        [Effect.logError ["NetworkConnection@unsubscribeFromDataChannel: r is a reserved dataType. Choose another"]]
    ∧ isReservedDataType "update" = false
    ∧ (subscribeToDataChannel exHost (exSession Obj.empty) "update" (Handler.callback 7) :
        Outcome Bool String).state.dataChannelSubs.get "update" = some (Handler.callback 7)
    ∧ (subscribeToDataChannel exHost (exSession Obj.empty) "update" (Handler.callback 7) :
        Outcome Bool String).effects = []
    ∧ (unsubscribeFromDataChannel (exSession Obj.empty) "remove" :
        Outcome Bool String).effects = [] := by
  decide

/-- C4, amended: for every session state and handler, `subscribeToDataChannel` and
`unsubscribeFromDataChannel` on a reserved data type (`ReservedDataType.Update` = 'u',
`ReservedDataType.Remove` = 'r') write one line with `NAF.log.error` naming the data type,
do nothing else, return normally, and leave the registry and the whole session as they were. -/
theorem C4_reserved_logged_and_ignored (E : Host) (s : NetworkConnection μ) (h : Handler) :
    (subscribeToDataChannel E s ReservedDataType.Update h : Outcome μ δ) =
        { state := s
          effects := [Effect.logError
            ["NetworkConnection@subscribeToDataChannel: u is a reserved dataType. Choose another"]]
          completion := Completion.returned }
    ∧ (subscribeToDataChannel E s ReservedDataType.Remove h : Outcome μ δ) =
        { state := s
          effects := [Effect.logError
            ["NetworkConnection@subscribeToDataChannel: r is a reserved dataType. Choose another"]]
          completion := Completion.returned }
    ∧ (unsubscribeFromDataChannel s ReservedDataType.Update : Outcome μ δ) =
        { state := s
          effects := [Effect.logError
            ["NetworkConnection@unsubscribeFromDataChannel: u is a reserved dataType. Choose another"]]
          completion := Completion.returned }
    ∧ (unsubscribeFromDataChannel s ReservedDataType.Remove : Outcome μ δ) =
        { state := s
          effects := [Effect.logError
            ["NetworkConnection@unsubscribeFromDataChannel: r is a reserved dataType. Choose another"]]
          completion := Completion.returned } := by
  refine ⟨?_, ?_, ?_, ?_⟩ <;> rfl

/-- C5: from a freshly constructed session, after any finite sequence of calls of the class
(in particular any sequence of `subscribeToDataChannel` and `unsubscribeFromDataChannel` calls
with arbitrary data types and handlers), 'u' is still an own property of `dataChannelSubs`
bound to `entities.updateEntity` and 'r' one bound to `entities.removeRemoteEntity`, the
handlers installed by `setupDefaultDataSubscriptions`. -/
theorem C5_reserved_bindings_invariant (g : Globals) (calls : List (Call μ δ)) :
    (run (constructor g) calls).1.dataChannelSubs.get ReservedDataType.Update =
        some Handler.updateEntity
    ∧ (run (constructor g) calls).1.dataChannelSubs.hasOwnProperty ReservedDataType.Update = true
    ∧ (run (constructor g) calls).1.dataChannelSubs.get ReservedDataType.Remove =
        some Handler.removeRemoteEntity
    ∧ (run (constructor g) calls).1.dataChannelSubs.hasOwnProperty ReservedDataType.Remove = true
    ∧ (constructor g : NetworkConnection μ).dataChannelSubs.get ReservedDataType.Update =
        some Handler.updateEntity
    ∧ (constructor g : NetworkConnection μ).dataChannelSubs.get ReservedDataType.Remove =
        some Handler.removeRemoteEntity := by
  have hu := run_reserved_get (constructor g : NetworkConnection μ) calls
    ReservedDataType.Update (Or.inl rfl) rfl
  have hr := run_reserved_get (constructor g : NetworkConnection μ) calls
    ReservedDataType.Remove (Or.inr rfl) rfl
  rw [get_setupDefault_update] at hu
  rw [get_setupDefault_remove] at hr
  refine ⟨hu, ?_, hr, ?_, get_setupDefault_update, get_setupDefault_remove⟩
  · rw [Obj.hasOwnProperty_iff_get_isSome, hu]; rfl
  · rw [Obj.hasOwnProperty_iff_get_isSome, hr]; rfl

theorem receivedData_of_bound (E : Host) (s : NetworkConnection μ) (p t : String) (d : δ)
    (h : Handler) (hclean : s.dataChannelSubs.hasOwnProperty "hasOwnProperty" = false)
    (hget : s.dataChannelSubs.get t = some h) :
    (receivedData E s p t d : Outcome μ δ) =
      { state := s, effects := [Effect.handler h p t d], completion := Completion.returned } := by
  have hhas : s.dataChannelSubs.hasOwnProperty t = true := by
    rw [Obj.hasOwnProperty_iff_get_isSome, hget]
    rfl
  simp [receivedData, Obj.callHasOwnProperty_of_clean _ t hclean, hhas, dispatchToHandler, hget]

theorem receivedData_of_unbound (E : Host) (s : NetworkConnection μ) (p t : String) (d : δ)
    (hclean : s.dataChannelSubs.hasOwnProperty "hasOwnProperty" = false)
    (hno : s.dataChannelSubs.hasOwnProperty t = false) :
    (receivedData E s p t d : Outcome μ δ) =
      { state := s, effects := [notSubscribedError t], completion := Completion.returned } := by
  simp [receivedData, Obj.callHasOwnProperty_of_clean _ t hclean, hno]

/-- Where the prototype of `dataChannelSubs` is still `Object.prototype`, no handler is
subscribed under "hasOwnProperty", before or by the call, and the data type is neither
reserved nor "__proto__": `subscribeToDataChannel(t, h)` returns silently with `t` bound to
`h` (whatever was bound before), and `receivedData(p, t, d)` then makes exactly one call,
`h(p, t, d)`, inside the call, logs no error, changes nothing and returns. -/
theorem subscribe_then_dispatch (E : Host) (s : NetworkConnection μ) (t : String) (h : Handler)
    (p : String) (d : δ) (ht : isReservedDataType t = false) (hproto : t ≠ "__proto__")
    (hshadow : t ≠ "hasOwnProperty")
    (hchain : s.dataChannelSubsProto = none)
    (hclean : s.dataChannelSubs.hasOwnProperty "hasOwnProperty" = false) :
    (subscribeToDataChannel E s t h : Outcome μ δ).effects = []
    ∧ (subscribeToDataChannel E s t h : Outcome μ δ).completion = Completion.returned
    ∧ (subscribeToDataChannel E s t h : Outcome μ δ).state.dataChannelSubs.get t = some h
    ∧ (receivedData E (subscribeToDataChannel E s t h : Outcome μ δ).state p t d : Outcome μ δ) =
        { state := (subscribeToDataChannel E s t h : Outcome μ δ).state
          effects := [Effect.handler h p t d]
          completion := Completion.returned } := by
  have hsub := subscribeToDataChannel_binds (δ := δ) E s t h ht hproto hchain
  have hget : (subscribeToDataChannel E s t h : Outcome μ δ).state.dataChannelSubs.get t =
      some h := by
    rw [hsub]
    exact Obj.get_set_self _ t h hproto
  have hclean2 : (subscribeToDataChannel E s t h :
      Outcome μ δ).state.dataChannelSubs.hasOwnProperty "hasOwnProperty" = false := by
    rw [hsub]
    have hne : ¬ "hasOwnProperty" = t := fun e => hshadow e.symm
    simp [Obj.hasOwnProperty_set, hclean, hne]
  refine ⟨by rw [hsub], by rw [hsub], hget, receivedData_of_bound E _ p t d h hclean2 hget⟩

/-- C6, failing inputs, all on a fresh session and with handlers that return `undefined`.
(1) "__proto__" is not reserved, yet `subscribeToDataChannel("__proto__", h)` leaves the
own properties of the registry as they were (the assignment of line 181 runs the prototype
setter: `h` becomes the prototype), and `receivedData(P, "__proto__", d)` only logs the
unknown-type error: `h` is never called.
(2) After `subscribeToDataChannel("hasOwnProperty", h)`, line 198 calls `h("hasOwnProperty")`
as the membership test and then logs the unknown-type error: `h` is not called with
`(p, t, d)`; with a handler that returns a truthy value `h` is called twice.
(3) With handler 0 subscribed under "hasOwnProperty", after
`subscribeToDataChannel("chat", h)` a "chat" message calls handler 0 first.
(4) After `subscribeToDataChannel("__proto__", h)`, the data type "name" is not reserved, yet
`subscribeToDataChannel("name", h2)` throws a TypeError (the registry inherits the read-only
"name" of the function `h`) and binds nothing. -/
theorem C6_failing_input :
    (isReservedDataType "__proto__" = false
      ∧ (subscribeToDataChannel exHost (exSession Obj.empty) "__proto__" (Handler.callback 1) :
          Outcome Bool String).completion = Completion.returned
      ∧ (subscribeToDataChannel exHost (exSession Obj.empty) "__proto__" (Handler.callback 1) :
          Outcome Bool String).state.dataChannelSubs = (exSession Obj.empty).dataChannelSubs
      ∧ (subscribeToDataChannel exHost (exSession Obj.empty) "__proto__" (Handler.callback 1) :
          Outcome Bool String).state.dataChannelSubs.get "__proto__" = none
      ∧ (receivedData exHost
          (subscribeToDataChannel exHost (exSession Obj.empty) "__proto__" (Handler.callback 1) :
            Outcome Bool String).state "P" "__proto__" "hello" : Outcome Bool String).effects =
          [notSubscribedError "__proto__"])
    ∧ (isReservedDataType "hasOwnProperty" = false
      ∧ (receivedData exHost
          (subscribeToDataChannel exHost (exSession Obj.empty) "hasOwnProperty"
            (Handler.callback 1) : Outcome Bool String).state "P" "hasOwnProperty" "hello" :
          Outcome Bool String).effects =
          [Effect.handlerTest (Handler.callback 1) "hasOwnProperty",
            notSubscribedError "hasOwnProperty"]
      ∧ (receivedData exHostTruthy
          (subscribeToDataChannel exHost (exSession Obj.empty) "hasOwnProperty"
            (Handler.callback 1) : Outcome Bool String).state "P" "hasOwnProperty" "hello" :
          Outcome Bool String).effects =
          [Effect.handlerTest (Handler.callback 1) "hasOwnProperty",
            Effect.handler (Handler.callback 1) "P" "hasOwnProperty" "hello"])
    ∧ (receivedData exHost
          (subscribeToDataChannel exHost exSessionShadowSubs "chat" (Handler.callback 1) :
            Outcome Bool String).state "P" "chat" "hello" : Outcome Bool String).effects =
        [Effect.handlerTest (Handler.callback 0) "chat", notSubscribedError "chat"]
    ∧ (isReservedDataType "name" = false
      ∧ (subscribeToDataChannel exHost
          (subscribeToDataChannel exHost (exSession Obj.empty) "__proto__" (Handler.callback 1) :
            Outcome Bool String).state "name" (Handler.callback 2) :
          Outcome Bool String).completion =
          Completion.threw "TypeError: Cannot assign to read only property name"
      ∧ (subscribeToDataChannel exHost
          (subscribeToDataChannel exHost (exSession Obj.empty) "__proto__" (Handler.callback 1) :
            Outcome Bool String).state "name" (Handler.callback 2) :
          Outcome Bool String).state.dataChannelSubs.get "name" = none) := by
  decide

/-- Where no handler is subscribed under "hasOwnProperty": when `dataType` is not an own
property of `dataChannelSubs`, `receivedData` writes one `NAF.log.error` line, calls no
handler, returns normally, and leaves the whole session (registry, channel states, connected
clients, connected flag) as it was. -/
theorem unknown_tag_logged (E : Host) (s : NetworkConnection μ) (p t : String) (d : δ)
    (hclean : s.dataChannelSubs.hasOwnProperty "hasOwnProperty" = false)
    (hno : s.dataChannelSubs.hasOwnProperty t = false) :
    (receivedData E s p t d : Outcome μ δ) =
      { state := s
        effects := [Effect.logError ["NetworkConnection@receivedData: " ++ t
          ++ " has not been subscribed to yet. Call subscribeToDataChannel()"]]
        completion := Completion.returned } :=
  receivedData_of_unbound E s p t d hclean hno

/-- C7, failing input: in the session where handler 0 is subscribed under "hasOwnProperty",
the data type "nope" has no handler bound.  `receivedData(P, "nope", d)` calls handler 0 on
"nope" (line 198 reaches it instead of the inherited method); when that handler returns
`undefined` the error line follows, and when it returns a truthy value line 199 throws a
TypeError. -/
theorem C7_failing_input :
    exSessionShadowSubs.dataChannelSubs.hasOwnProperty "nope" = false
    ∧ (receivedData exHost exSessionShadowSubs "P" "nope" "hello" :
        Outcome Bool String).effects =
        [Effect.handlerTest (Handler.callback 0) "nope", notSubscribedError "nope"]
    ∧ (receivedData exHostTruthy exSessionShadowSubs "P" "nope" "hello" :
        Outcome Bool String).effects = [Effect.handlerTest (Handler.callback 0) "nope"]
    ∧ (receivedData exHostTruthy exSessionShadowSubs "P" "nope" "hello" :
        Outcome Bool String).completion =
        Completion.threw "TypeError: this.dataChannelSubs[dataType] is not a function" := by
  decide

end Registry

/-! ## Channel state and sending -/

section Channels

variable {μ δ : Type}

open NetworkConnection

/-- C8: when `hasActiveDataChannel(p)` returns `false`, `sendData(p, tag, payload,
guaranteed)` makes no call on the adapter (nor any other call), returns normally, and leaves
the session unchanged, for both values of `guaranteed`; so does `sendDataGuaranteed`. -/
theorem C8_send_gated (s : NetworkConnection μ) (p tag : String) (d : δ) (guaranteed : Bool)
    (hp : hasActiveDataChannel s p = Answer.returned (some false)) :
    (sendData s p tag d guaranteed : Outcome μ δ) =
        { state := s, effects := [], completion := Completion.returned }
    ∧ (sendDataGuaranteed s p tag d : Outcome μ δ) =
        { state := s, effects := [], completion := Completion.returned } := by
  simp [sendDataGuaranteed, sendData, hp, truthy]

/-- C8 at concrete inputs: P was never opened in a fresh session, and its last event is a
close in `exSessionClosedP`; in both `hasActiveDataChannel("P")` returns `false` and a send
to P does nothing. -/
theorem C8_send_gated_witness :
    (hasActiveDataChannel (exSession Obj.empty) "P" = Answer.returned (some false)
      ∧ (sendData (exSession Obj.empty) "P" "chat" "hello" false : Outcome Bool String) =
        { state := exSession Obj.empty, effects := [], completion := Completion.returned })
    ∧ (hasActiveDataChannel exSessionClosedP "P" = Answer.returned (some false)
      ∧ (sendData exSessionClosedP "P" "chat" "hello" true : Outcome Bool String) =
        { state := exSessionClosedP, effects := [], completion := Completion.returned }) :=
  ⟨⟨by decide, (C8_send_gated (exSession Obj.empty) "P" "chat" "hello" false (by decide)).1⟩,
    ⟨by decide, (C8_send_gated exSessionClosedP "P" "chat" "hello" true (by decide)).1⟩⟩

/-- C9: when `hasActiveDataChannel(p)` returns `true`, `sendData(p, tag, payload, false)`
makes exactly one call, `adapter.sendData(p, tag, payload)`; `sendData(p, tag, payload, true)`
makes exactly one call, `adapter.sendDataGuaranteed(p, tag, payload)`; the session is
unchanged; and `sendDataGuaranteed(p, tag, payload)` is `sendData(p, tag, payload, true)`. -/
theorem C9_delivery_mode (s : NetworkConnection μ) (p tag : String) (d : δ)
    (hp : hasActiveDataChannel s p = Answer.returned (some true)) :
    (sendData s p tag d false : Outcome μ δ) =
        { state := s
          effects := [Effect.adapter (AdapterCall.sendData p tag d)]
          completion := Completion.returned }
    ∧ (sendData s p tag d true : Outcome μ δ) =
        { state := s
          effects := [Effect.adapter (AdapterCall.sendDataGuaranteed p tag d)]
          completion := Completion.returned }
    ∧ (sendDataGuaranteed s p tag d : Outcome μ δ) = sendData s p tag d true := by
  simp [sendDataGuaranteed, sendData, hp, truthy]

/-- C9 at a concrete input: the channel of P is open in `exSessionOpenP`. -/
theorem C9_delivery_mode_witness :
    hasActiveDataChannel exSessionOpenP "P" = Answer.returned (some true)
    ∧ (sendData exSessionOpenP "P" "chat" "hello" false : Outcome Bool String).effects =
        [Effect.adapter (AdapterCall.sendData "P" "chat" "hello")]
    ∧ (sendDataGuaranteed exSessionOpenP "P" "chat" "hello" : Outcome Bool String).effects =
        [Effect.adapter (AdapterCall.sendDataGuaranteed "P" "chat" "hello")] :=
  ⟨by decide,
    by rw [(C9_delivery_mode exSessionOpenP "P" "chat" "hello" (by decide)).1],
    by rw [(C9_delivery_mode exSessionOpenP "P" "chat" "hello" (by decide)).2.2,
      (C9_delivery_mode exSessionOpenP "P" "chat" "hello" (by decide)).2.1]⟩

/-- Once `activeDataChannels` has an own property named "hasOwnProperty", every
`hasActiveDataChannel` throws, and `sendData` with it, before any call on the adapter. -/
theorem sendData_of_shadowed (s : NetworkConnection μ) (p tag : String) (d : δ)
    (guaranteed : Bool) (b : Bool) (hs : s.activeDataChannels.get "hasOwnProperty" = some b) :
    hasActiveDataChannel s p =
        Answer.threw "TypeError: this.activeDataChannels.hasOwnProperty is not a function"
    ∧ (sendData s p tag d guaranteed : Outcome μ δ) =
        { state := s
          effects := []
          completion :=
            Completion.threw
              "TypeError: this.activeDataChannels.hasOwnProperty is not a function" } := by
  have h1 : hasActiveDataChannel s p =
      Answer.threw "TypeError: this.activeDataChannels.hasOwnProperty is not a function" := by
    simp [hasActiveDataChannel, Obj.callHasOwnProperty, hs]
  exact ⟨h1, by simp [sendData, h1]⟩

theorem step_activeDataChannels (s : NetworkConnection μ) (c : Call μ δ) :
    (step s c).state.activeDataChannels =
      match c.channelEvent with
      | some e => s.activeDataChannels.set e.1 e.2
      | none => s.activeDataChannels := by
  cases c with
  | onConnect callback =>
    cases hc : s.connected <;> simp [step, onConnect, hc, Call.channelEvent]
  | sendData toClientId dataType data guaranteed =>
    simp only [step, sendData_state, Call.channelEvent]
  | sendDataGuaranteed toClientId dataType data =>
    simp only [step, sendDataGuaranteed, sendData_state, Call.channelEvent]
  | receivedData E fromClientId dataType data =>
    simp only [step, receivedData_state, Call.channelEvent]
  | occupantsReceived A occupantList =>
    simp only [step, Call.channelEvent]
    rcases occupantsReceived_state_cases A s occupantList with h | h <;> rw [h]
  | subscribeToDataChannel E dataType callback =>
    simp only [step, Call.channelEvent]
    exact (subscribeToDataChannel_frame E s dataType callback).2.1
  | unsubscribeFromDataChannel dataType =>
    simp only [step, unsubscribeFromDataChannel, Call.channelEvent]
    split <;> rfl
  | _ => rfl

theorem run_append (s : NetworkConnection μ) (l1 l2 : List (Call μ δ)) :
    (run s (l1 ++ l2)).1 = (run (run s l1).1 l2).1 := by
  induction l1 generalizing s with
  | nil => rfl
  | cons c rest ih =>
    rw [List.cons_append]
    simp only [run]
    exact ih _

theorem channelEventsFor_append (p : String) (l1 l2 : List (Call μ δ)) :
    channelEventsFor p (l1 ++ l2) = channelEventsFor p l1 ++ channelEventsFor p l2 := by
  simp only [channelEventsFor, List.filterMap_append]

/-- The own property `p` of `activeDataChannels` after a run: the last event for `p`, if
there is one, else the one it had; except that "__proto__" stays absent where it was absent
(no assignment creates it). -/
theorem run_activeDataChannels_get (s : NetworkConnection μ) (calls : List (Call μ δ))
    (p : String) :
    (run s calls).1.activeDataChannels.get p =
      if p = "__proto__" ∧ s.activeDataChannels.hasOwnProperty "__proto__" = false then none
      else ((channelEventsFor p calls).getLast?).or (s.activeDataChannels.get p) := by
  induction calls using List.reverseRecOn with
  | nil =>
    by_cases hp : p = "__proto__" ∧ s.activeDataChannels.hasOwnProperty "__proto__" = false
    · obtain ⟨hp1, hp2⟩ := hp
      subst hp1
      simp [run, channelEventsFor, hp2, (Obj.get_eq_none_iff _ _).mpr hp2]
    · rw [if_neg hp]
      simp [run, channelEventsFor]
  | append_singleton l c ih =>
    rw [run_append, channelEventsFor_append]
    simp only [run, step_activeDataChannels]
    cases hc : c.channelEvent with
    | none =>
      simp only [channelEventsFor, List.filterMap_cons, hc, List.filterMap_nil,
        List.append_nil] at ih ⊢
      exact ih
    | some e =>
      obtain ⟨q, b⟩ := e
      by_cases hq : q = p
      · subst hq
        by_cases hp : q = "__proto__" ∧ s.activeDataChannels.hasOwnProperty "__proto__" = false
        · rw [if_pos hp] at ih
          rw [if_pos hp]
          obtain ⟨hp1, _⟩ := hp
          subst hp1
          have hno := (Obj.get_eq_none_iff _ _).mp ih
          simp only [Obj.set_proto _ b hno]
          exact ih
        · rw [if_neg hp] at ih
          rw [if_neg hp]
          have hown : q ≠ "__proto__" ∨
              (run s l).1.activeDataChannels.hasOwnProperty "__proto__" = true := by
            by_cases h1 : q = "__proto__"
            · right
              subst h1
              have hs : s.activeDataChannels.hasOwnProperty "__proto__" = true := by
                cases h2 : s.activeDataChannels.hasOwnProperty "__proto__" with
                | true => rfl
                | false => exact absurd ⟨rfl, h2⟩ hp
              rw [Obj.hasOwnProperty_iff_get_isSome, ih]
              rw [Obj.hasOwnProperty_iff_get_isSome] at hs
              cases hg : s.activeDataChannels.get "__proto__" with
              | none => rw [hg] at hs; simp at hs
              | some x => cases (channelEventsFor "__proto__" l).getLast? <;> simp
            · exact Or.inl h1
          simp [channelEventsFor, hc, Obj.get_set_self_of _ q b hown]
      · have hne : p ≠ q := fun h => hq h.symm
        simp only [Obj.get_set_ne _ q b p hne, ih]
        simp [channelEventsFor, hc, hq]

theorem hasActiveDataChannel_of_clean (s : NetworkConnection μ) (p : String)
    (hclean : s.activeDataChannels.get "hasOwnProperty" = none) :
    hasActiveDataChannel s p =
      Answer.returned (match s.activeDataChannels.get p with
        | some b => some b
        | none => some false) := by
  have hc : s.activeDataChannels.callHasOwnProperty p =
      Obj.HasOwnCall.inherited (s.activeDataChannels.hasOwnProperty p) := by
    simp [Obj.callHasOwnProperty, hclean]
  unfold hasActiveDataChannel
  rw [hc]
  cases hg : s.activeDataChannels.get p with
  | none =>
    have : s.activeDataChannels.hasOwnProperty p = false := (Obj.get_eq_none_iff _ p).mp hg
    simp [this]
  | some b =>
    have : s.activeDataChannels.hasOwnProperty p = true := by
      rw [Obj.hasOwnProperty_iff_get_isSome, hg]
      rfl
    simp [this, hg]

theorem hasOwnProperty_eq_isSome (o : Obj Bool) (k : String) :
    o.hasOwnProperty k = (o.get k).isSome := by
  cases h : (o.get k).isSome with
  | true => exact (Obj.hasOwnProperty_iff_get_isSome o k).mpr h
  | false =>
    rw [← Bool.not_eq_true, Obj.hasOwnProperty_iff_get_isSome, h]
    simp

/-- The answer of `hasActiveDataChannel(p)` depends on `activeDataChannels` only through its
own properties "hasOwnProperty" and `p`. -/
theorem hasActiveDataChannel_congr (s1 s2 : NetworkConnection μ) (p : String)
    (hshadow : s1.activeDataChannels.get "hasOwnProperty" =
      s2.activeDataChannels.get "hasOwnProperty")
    (hp : s1.activeDataChannels.get p = s2.activeDataChannels.get p) :
    hasActiveDataChannel s1 p = hasActiveDataChannel s2 p := by
  simp only [hasActiveDataChannel, Obj.callHasOwnProperty, hasOwnProperty_eq_isSome, hshadow, hp]

/-- Where no data-channel event names the peer "hasOwnProperty", and for a peer `p` other
than "__proto__": starting from a freshly constructed session, after any finite sequence of
calls, `hasActiveDataChannel(p)` returns the boolean `true` exactly when the sequence has an
event for `p` and the last one is an open, and the boolean `false` otherwise, never
`undefined`.  An event for another peer, not named "hasOwnProperty", leaves the answer for
`p` as it was, in any session; and no call removes a property of `activeDataChannels`. -/
theorem channel_state_tracking (g : Globals) (calls : List (Call μ δ)) (p : String)
    (hshadow : channelEventsFor "hasOwnProperty" calls = []) (hproto : p ≠ "__proto__") :
    hasActiveDataChannel (run (constructor g) calls).1 p =
        Answer.returned (some (decide ((channelEventsFor p calls).getLast? = some true)))
    ∧ (hasActiveDataChannel (run (constructor g) calls).1 p = Answer.returned (some true) ↔
        (channelEventsFor p calls ≠ [] ∧ (channelEventsFor p calls).getLast? = some true))
    ∧ (channelEventsFor p calls = [] →
        hasActiveDataChannel (run (constructor g) calls).1 p = Answer.returned (some false))
    ∧ (∀ (s : NetworkConnection μ) (q : String), q ≠ p → q ≠ "hasOwnProperty" →
        hasActiveDataChannel (dataChannelOpen s q : Outcome μ δ).state p =
            hasActiveDataChannel s p
        ∧ hasActiveDataChannel (dataChannelClosed s q : Outcome μ δ).state p =
            hasActiveDataChannel s p)
    ∧ (∀ (s : NetworkConnection μ) (c : Call μ δ) (q : String),
        s.activeDataChannels.hasOwnProperty q = true →
          (step s c).state.activeDataChannels.hasOwnProperty q = true) := by
  have hfresh : ∀ k, (constructor g : NetworkConnection μ).activeDataChannels.get k = none :=
    fun _ => rfl
  have hclean : (run (constructor g) calls).1.activeDataChannels.get "hasOwnProperty" = none := by
    rw [run_activeDataChannels_get, hshadow, hfresh]
    simp
  have hget : (run (constructor g) calls).1.activeDataChannels.get p =
      (channelEventsFor p calls).getLast? := by
    rw [run_activeDataChannels_get, hfresh, if_neg (fun h => hproto h.1)]
    simp
  have hmain : hasActiveDataChannel (run (constructor g) calls).1 p =
      Answer.returned (some (decide ((channelEventsFor p calls).getLast? = some true))) := by
    rw [hasActiveDataChannel_of_clean _ p hclean, hget]
    cases hl : (channelEventsFor p calls).getLast? with
    | none => simp
    | some b => cases b <;> simp
  refine ⟨hmain, ?_, ?_, ?_, ?_⟩
  · rw [hmain]
    constructor
    · intro h
      have hlast : (channelEventsFor p calls).getLast? = some true := by simpa using h
      refine ⟨?_, hlast⟩
      intro hnil
      rw [hnil] at hlast
      simp at hlast
    · rintro ⟨_, hlast⟩
      simp [hlast]
  · intro hnil
    rw [hmain, hnil]
    simp
  · intro s q hq hqs
    have hne : p ≠ q := fun h => hq h.symm
    have hne2 : "hasOwnProperty" ≠ q := fun h => hqs h.symm
    constructor
    · apply hasActiveDataChannel_congr
      · exact Obj.get_set_ne _ q true _ hne2
      · exact Obj.get_set_ne _ q true p hne
    · apply hasActiveDataChannel_congr
      · exact Obj.get_set_ne _ q false _ hne2
      · exact Obj.get_set_ne _ q false p hne
  · intro s c q hq
    rw [step_activeDataChannels]
    cases c.channelEvent with
    | none => exact hq
    | some e => exact Obj.hasOwnProperty_set_of_has _ _ _ _ hq

/-- C10, failing inputs, from a fresh session.  (1) After `dataChannelOpen("__proto__")` the
last event for "__proto__" is an open, yet `hasActiveDataChannel("__proto__")` returns
`false`: the assignment of line 136 ran the prototype setter and stored nothing.  (2)
`hasActiveDataChannel("P")` is `false` before, and after `dataChannelOpen("hasOwnProperty")`
it throws a TypeError, for P, which had no event, and for "hasOwnProperty", whose last event
is an open: the stored `true` is called where line 149 meant the inherited method.  The event
for another peer changed the answer for P, and `sendData` to P throws. -/
theorem C10_failing_input :
    (channelEventsFor "__proto__" ([Call.dataChannelOpen "__proto__"] : List (Call Bool String))
        = [true]
      ∧ hasActiveDataChannel
          (run (constructor exGlobals : NetworkConnection Bool)
            ([Call.dataChannelOpen "__proto__"] : List (Call Bool String))).1 "__proto__" =
          Answer.returned (some false))
    ∧ (hasActiveDataChannel (constructor exGlobals : NetworkConnection Bool) "P" =
          Answer.returned (some false)
      ∧ hasActiveDataChannel
          (run (constructor exGlobals : NetworkConnection Bool)
            ([Call.dataChannelOpen "hasOwnProperty"] : List (Call Bool String))).1 "P" =
          Answer.threw "TypeError: this.activeDataChannels.hasOwnProperty is not a function"
      ∧ hasActiveDataChannel
          (run (constructor exGlobals : NetworkConnection Bool)
            ([Call.dataChannelOpen "hasOwnProperty"] : List (Call Bool String))).1
            "hasOwnProperty" =
          Answer.threw "TypeError: this.activeDataChannels.hasOwnProperty is not a function"
      ∧ (sendData exSessionShadowChannels "P" "chat" "hello" false :
          Outcome Bool String).completion =
          Completion.threw
            "TypeError: this.activeDataChannels.hasOwnProperty is not a function") := by
  decide

end Channels

/-! ## Connection state and `onConnect` -/

section Connection

variable {μ δ : Type}

open NetworkConnection

/-- C11, as stated, fails: after `connectSuccess("me")` the session is connected, and a later
`connectFailure` resets the flag, so `isConnected()` returns `false`. -/
theorem C11_counterexample :
    isConnected exSessionConnected = true
    ∧ isConnected
        (connectFailure exSessionConnected "401" "denied" : Outcome Bool String).state = false := by
  decide

/-- C11, amended: `connectFailure(code, message)` writes one `NAF.log.error` line and sets
`connected` to `false`, changing nothing else, for every prior state: a session that was not
connected is left as it was, and a session that `connectSuccess` had set connected is reset,
so `isConnected()` returns `false` afterwards. -/
theorem C11_connectFailure_resets (s : NetworkConnection μ) (errorCode message clientId : String) :
    (connectFailure s errorCode message : Outcome μ δ) =
        { state := { s with connected := false }
          effects := [Effect.logError [errorCode, "failure to login"]]
          completion := Completion.returned }
    ∧ isConnected (connectFailure s errorCode message : Outcome μ δ).state = false
    ∧ (s.connected = false → (connectFailure s errorCode message : Outcome μ δ).state = s)
    ∧ isConnected (connectSuccess s clientId : Outcome μ δ).state = true
    ∧ isConnected
        (connectFailure (connectSuccess s clientId : Outcome μ δ).state errorCode message :
          Outcome μ δ).state = false := by
  refine ⟨rfl, rfl, ?_, rfl, rfl⟩
  intro h
  cases s
  simp only [connectFailure] at h ⊢
  subst h
  rfl

theorem callbackCount_append (cb : Nat) (a b : List (Effect δ)) :
    callbackCount cb (a ++ b) = callbackCount cb a + callbackCount cb b := by
  induction a with
  | nil => simp [callbackCount]
  | cons e rest ih =>
    cases e with
    | callback c => simp [callbackCount, ih, Nat.add_assoc]
    | _ => simp [callbackCount, ih]

theorem callbackCount_map_callback (cb : Nat) (l : List Nat) :
    callbackCount cb (l.map (Effect.callback : Nat → Effect δ)) = l.count cb := by
  induction l with
  | nil => rfl
  | cons c rest ih =>
    by_cases h : c = cb
    · subst h
      simp [callbackCount, ih, Nat.add_comm]
    · simp [callbackCount, ih, h, List.count_cons]

theorem callbackCount_connectSuccess (s : NetworkConnection μ) (clientId : String) (cb : Nat) :
    callbackCount cb (connectSuccess s clientId : Outcome μ δ).effects =
      s.globals.connectedListeners.count cb := by
  simp only [connectSuccess]
  rw [callbackCount_append, callbackCount_map_callback]
  simp [callbackCount]

theorem mem_addConnectedListener (g : Globals) (cb : Nat) :
    cb ∈ (addConnectedListener g cb).connectedListeners := by
  unfold addConnectedListener
  split
  · assumption
  · simp

theorem mem_addConnectedListener_of_mem (g : Globals) (cb c : Nat)
    (h : c ∈ g.connectedListeners) : c ∈ (addConnectedListener g cb).connectedListeners := by
  unfold addConnectedListener
  split
  · exact h
  · simp [h]

theorem nodup_addConnectedListener (g : Globals) (cb : Nat)
    (h : g.connectedListeners.Nodup) : (addConnectedListener g cb).connectedListeners.Nodup := by
  unfold addConnectedListener
  split
  · exact h
  · rename_i hcb
    exact List.Nodup.append h (List.nodup_singleton cb) (by
      intro a ha hb
      simp only [List.mem_singleton] at hb
      exact hcb (hb ▸ ha))

/-- A call leaves the 'connected' listeners as they were, unless it is an `onConnect` on a
session that is not connected, which adds its callback. -/
theorem step_connectedListeners (s : NetworkConnection μ) (c : Call μ δ) :
    (step s c).state.globals.connectedListeners = s.globals.connectedListeners ∨
      ∃ cb, (step s c).state.globals.connectedListeners =
        (addConnectedListener s.globals cb).connectedListeners := by
  cases c with
  | onConnect callback =>
    cases hc : s.connected with
    | true => left; simp [step, onConnect, hc]
    | false => right; exact ⟨callback, by simp [step, onConnect, hc]⟩
  | sendData toClientId dataType data guaranteed =>
    left
    simp only [step, sendData_state]
  | sendDataGuaranteed toClientId dataType data =>
    left
    simp only [step, sendDataGuaranteed, sendData_state]
  | receivedData E fromClientId dataType data =>
    left
    simp only [step, receivedData_state]
  | occupantsReceived A occupantList =>
    left
    simp only [step]
    rcases occupantsReceived_state_cases A s occupantList with h | h <;> rw [h]
  | subscribeToDataChannel E dataType callback =>
    left
    simp only [step]
    rw [(subscribeToDataChannel_frame E s dataType callback).2.2.2]
  | unsubscribeFromDataChannel dataType =>
    left
    simp only [step, unsubscribeFromDataChannel]
    split <;> rfl
  | _ => exact Or.inl rfl

theorem run_connectedListeners (s : NetworkConnection μ) (calls : List (Call μ δ)) (cb : Nat)
    (hmem : cb ∈ s.globals.connectedListeners) (hnd : s.globals.connectedListeners.Nodup) :
    cb ∈ (run s calls).1.globals.connectedListeners ∧
      (run s calls).1.globals.connectedListeners.Nodup := by
  induction calls generalizing s with
  | nil => exact ⟨hmem, hnd⟩
  | cons c rest ih =>
    simp only [run]
    rcases step_connectedListeners s c with h | ⟨cb2, h⟩
    · exact ih _ (h ▸ hmem) (h ▸ hnd)
    · exact ih _ (h ▸ mem_addConnectedListener_of_mem _ cb2 cb hmem)
        (h ▸ nodup_addConnectedListener _ cb2 hnd)

/-- C12, as stated, fails: `onConnect(cb)` on a session that is not connected registers `cb`
as a 'connected' listener that is never removed, so `cb` runs once at the first
`connectSuccess` and once more at a second one: twice over the run. -/
theorem C12_counterexample :
    (exSession Obj.empty).connected = false
    ∧ callbackCount 5 (onConnect (exSession Obj.empty) 5 : Outcome Bool String).effects = 0
    ∧ callbackCount 5 (connectSuccess exSessionWaiting "me" : Outcome Bool String).effects = 1
    ∧ callbackCount 5
        (connectSuccess (connectSuccess exSessionWaiting "me" : Outcome Bool String).state "me" :
          Outcome Bool String).effects = 1
    ∧ callbackCount 5
        (run (exSession Obj.empty)
          [Call.onConnect 5, Call.connectSuccess "me", Call.connectSuccess "me"] :
          NetworkConnection Bool × List (Effect String)).2 = 2 := by
  decide

/-- C12, amended: on a connected session `onConnect(cb)` calls `cb` exactly once, inside the
call, and registers nothing.  On a session that is not connected it calls nothing and adds
`cb` to the 'connected' listeners of `document.body` (once, however often it is registered);
from then on every `connectSuccess`, the first and each further one, whatever calls come in
between, calls `cb` exactly once.  (The listeners of `document.body` hold no duplicates.) -/
theorem C12_onConnect (s : NetworkConnection μ) (cb : Nat)
    (hnd : s.globals.connectedListeners.Nodup) :
    (s.connected = true →
      (onConnect s cb : Outcome μ δ) =
        { state := s, effects := [Effect.callback cb], completion := Completion.returned })
    ∧ (s.connected = false →
        (onConnect s cb : Outcome μ δ).effects = []
        ∧ (onConnect s cb : Outcome μ δ).completion = Completion.returned
        ∧ (onConnect s cb : Outcome μ δ).state =
            { s with globals := addConnectedListener s.globals cb }
        ∧ (onConnect s cb : Outcome μ δ).state.globals.connectedListeners.count cb = 1
        ∧ ∀ (calls : List (Call μ δ)) (clientId : String),
            callbackCount cb
              (connectSuccess (run (onConnect s cb : Outcome μ δ).state calls).1 clientId :
                Outcome μ δ).effects = 1) := by
  constructor
  · intro hc
    simp [onConnect, hc]
  · intro hc
    have hst : (onConnect s cb : Outcome μ δ).state =
        { s with globals := addConnectedListener s.globals cb } := by
      simp [onConnect, hc]
    have hmem : cb ∈ (onConnect s cb : Outcome μ δ).state.globals.connectedListeners := by
      rw [hst]
      exact mem_addConnectedListener s.globals cb
    have hnd2 : (onConnect s cb : Outcome μ δ).state.globals.connectedListeners.Nodup := by
      rw [hst]
      exact nodup_addConnectedListener s.globals cb hnd
    refine ⟨by simp [onConnect, hc], by simp [onConnect, hc], hst,
      List.count_eq_one_of_mem hnd2 hmem, ?_⟩
    intro calls clientId
    rw [callbackCount_connectSuccess]
    have h := run_connectedListeners (onConnect s cb : Outcome μ δ).state calls cb hmem hnd2
    exact List.count_eq_one_of_mem h.2 h.1

/-- C12 at a concrete input: a fresh session has no 'connected' listener and is not connected;
after `onConnect(5)`, a first `connectSuccess` and then a second one each call callback 5
once. -/
theorem C12_onConnect_witness :
    (exSession Obj.empty).globals.connectedListeners.Nodup
    ∧ (exSession Obj.empty).connected = false
    ∧ callbackCount 5
        (connectSuccess
          (run (onConnect (exSession Obj.empty) 5 : Outcome Bool String).state
            [Call.connectSuccess "me"] : NetworkConnection Bool × List (Effect String)).1 "me" :
          Outcome Bool String).effects = 1 :=
  ⟨by decide, by decide,
    (C12_onConnect (exSession Obj.empty) 5 (by decide)).2 (by decide) |>.2.2.2.2
      [Call.connectSuccess "me"] "me"⟩

end Connection

/-! ## Sequences of occupant lists -/

section Snapshots

variable {μ δ : Type}

open NetworkConnection

theorem step_connectedClients (s : NetworkConnection μ) (c : Call μ δ) :
    (step s c).state.connectedClients =
      match c.snapshot with
      | some occupantList =>
        if (step s c).completion = Completion.returned then occupantList
        else s.connectedClients
      | none => s.connectedClients := by
  cases c with
  | occupantsReceived A occupantList =>
    simp only [step, Call.snapshot]
    by_cases h : (occupantsReceived A s occupantList : Outcome μ δ).completion =
        Completion.returned
    · rw [if_pos h, (occupantsReceived_state A s occupantList).1 h]
    · rw [if_neg h, (occupantsReceived_state A s occupantList).2 h]
  | onConnect callback =>
    cases hc : s.connected <;> simp [step, onConnect, hc, Call.snapshot]
  | sendData toClientId dataType data guaranteed =>
    simp only [step, sendData_state, Call.snapshot]
  | sendDataGuaranteed toClientId dataType data =>
    simp only [step, sendDataGuaranteed, sendData_state, Call.snapshot]
  | receivedData E fromClientId dataType data =>
    simp only [step, receivedData_state, Call.snapshot]
  | subscribeToDataChannel E dataType callback =>
    simp only [step, Call.snapshot]
    exact (subscribeToDataChannel_frame E s dataType callback).1
  | unsubscribeFromDataChannel dataType =>
    simp only [step, unsubscribeFromDataChannel, Call.snapshot]
    split <;> rfl
  | _ => rfl

theorem getLast?_cons_getD (a d : Obj μ) (l : List (Obj μ)) :
    ((a :: l).getLast?).getD d = (l.getLast?).getD a := by
  rw [List.getLast?_cons]
  rfl

theorem run_connectedClients (s : NetworkConnection μ) (calls : List (Call μ δ))
    (hret : deliveriesReturn s calls = true) :
    (run s calls).1.connectedClients =
      ((calls.filterMap Call.snapshot).getLast?).getD s.connectedClients := by
  induction calls generalizing s with
  | nil => rfl
  | cons c rest ih =>
    simp only [deliveriesReturn, Bool.and_eq_true] at hret
    obtain ⟨hc, hrest⟩ := hret
    simp only [run]
    rw [ih _ hrest, step_connectedClients]
    cases c with
    | occupantsReceived A occupantList =>
      have hr : (step s (Call.occupantsReceived A occupantList : Call μ δ)).completion =
          Completion.returned := by simpa using hc
      simp only [Call.snapshot, hr, if_true, List.filterMap_cons]
      rw [getLast?_cons_getD]
    | _ => simp [Call.snapshot]

theorem closeCalls_occupantsReceived_general (A : Adapter μ) (s : NetworkConnection μ)
    (new : Obj μ) :
    closeCalls (occupantsReceived A s new : Outcome μ δ).effects =
      closeCalls
        (checkForDisconnectingClients A s s.connectedClients new : Outcome μ δ).effects := by
  rw [occupantsReceived_effects_general, closeCalls_append]
  have h : closeCalls
      (match (disconnectingLoop A new s.connectedClients.keys :
          List (Effect δ) × Completion).2 with
        | Completion.returned =>
          ((new.entries.filter (startsConnection A)).map Prod.fst).flatMap arrivalEffects
        | Completion.threw _ => ([] : List (Effect δ))) = [] := by
    split
    · exact closeCalls_flatMap_arrival _
    · rfl
  rw [h, List.append_nil]
  rfl

/-- The first delivery to a fresh session returns and closes nothing, whatever the list. -/
theorem occupantsReceived_fresh (g : Globals) (A : Adapter μ) (S : Obj μ) :
    (occupantsReceived A (constructor g) S : Outcome μ δ).completion = Completion.returned
    ∧ closeCalls (occupantsReceived A (constructor g) S : Outcome μ δ).effects = [] := by
  constructor
  · rfl
  · rw [closeCalls_occupantsReceived_general]
    rfl

/-- C13: a call `occupantsReceived(new)` that returns has replaced `connectedClients` by
`new`, in any session and with any adapter answers, nothing of the previous list being kept.
Hence, from a fresh session and after any sequence of calls whose deliveries all return,
`getConnectedClients()` is the occupant list delivered last (`{}` when none was), it is `S`
right after `S` is delivered, and the streams closed when `S` is delivered next are those
`checkForDisconnectingClients` closes for the list delivered just before and `S`: the keys of
that list that are not keys of `S` (for `S` with no peer named "hasOwnProperty"), none at
all for the first delivery. -/
theorem C13_connectedClients_is_last_snapshot (g : Globals) (s : NetworkConnection μ)
    (calls : List (Call μ δ)) (A : Adapter μ) (S : Obj μ)
    (hret : deliveriesReturn (constructor g : NetworkConnection μ) calls = true) :
    ((occupantsReceived A s S : Outcome μ δ).completion = Completion.returned →
        getConnectedClients (occupantsReceived A s S : Outcome μ δ).state = S)
    ∧ ((occupantsReceived A (run (constructor g) calls).1 S : Outcome μ δ).completion =
          Completion.returned →
        getConnectedClients
          (run (constructor g) (calls ++ [Call.occupantsReceived A S])).1 = S)
    ∧ getConnectedClients (run (constructor g) calls).1 = lastSnapshot calls
    ∧ closeCalls
        (occupantsReceived A (run (constructor g) calls).1 S : Outcome μ δ).effects =
        closeCalls
          (checkForDisconnectingClients A (run (constructor g) calls).1 (lastSnapshot calls) S :
            Outcome μ δ).effects
    ∧ (S.hasOwnProperty "hasOwnProperty" = false →
        (occupantsReceived A (run (constructor g) calls).1 S : Outcome μ δ).completion =
            Completion.returned
        ∧ closeCalls
            (occupantsReceived A (run (constructor g) calls).1 S : Outcome μ δ).effects =
            (lastSnapshot calls).keys.filter (fun id => !S.hasOwnProperty id))
    ∧ ((occupantsReceived A (constructor g) S : Outcome μ δ).completion = Completion.returned
        ∧ closeCalls (occupantsReceived A (constructor g) S : Outcome μ δ).effects = []) := by
  have hlast : (run (constructor g) calls).1.connectedClients = lastSnapshot calls := by
    rw [run_connectedClients _ calls hret]
    rfl
  refine ⟨?_, ?_, hlast, ?_, ?_, occupantsReceived_fresh g A S⟩
  · intro h
    simp only [getConnectedClients, (occupantsReceived_state A s S).1 h]
  · intro h
    simp only [getConnectedClients]
    rw [run_append]
    simp only [run, step, (occupantsReceived_state A _ S).1 h]
  · rw [closeCalls_occupantsReceived_general, hlast]
  · intro hclean
    refine ⟨(occupantsReceived_of_clean A _ S hclean).1, ?_⟩
    rw [closeCalls_occupantsReceived A _ S hclean, hlast]

/-- C13 at a concrete input: the deliveries `{A}`, `{A, B}` to a fresh session both return,
and `getConnectedClients()` is then `{A, B}`, the list delivered last. -/
theorem C13_connectedClients_is_last_snapshot_witness :
    deliveriesReturn (constructor exGlobals : NetworkConnection Bool) exDeliveries = true
    ∧ getConnectedClients (run (constructor exGlobals) exDeliveries).1 = lastSnapshot exDeliveries
    ∧ lastSnapshot exDeliveries = exOccupantsAB :=
  ⟨by decide,
    (C13_connectedClients_is_last_snapshot exGlobals (exSession Obj.empty) exDeliveries
      exAdapterNoStream exOccupantsA (by decide)).2.2.1,
    by decide⟩

end Snapshots

/-! ## Channel events and ordering of a reconciliation pass -/

section ChannelEvents

variable {μ δ : Type}

open NetworkConnection

/-- C14: `dataChannelOpen(p)` writes a log line, calls `entities.completeSync()` once and
dispatches one 'dataChannelOpened' event; `dataChannelClosed(p)` writes a log line, calls
`entities.removeEntitiesFromClient(p)` once, for the same `p`, and dispatches one
'dataChannelClosed' event.  Both return normally and change only `activeDataChannels[p]`:
`connectedClients`, `dataChannelSubs`, `connected` and the globals stay as they were. -/
theorem C14_channel_open_close_effects (s : NetworkConnection μ) (p : String) :
    ((dataChannelOpen s p : Outcome μ δ).effects =
        [ Effect.logWrite ["Opened data channel from " ++ p],
          Effect.completeSync,
          Effect.dispatchEvent "dataChannelOpened" ]
      ∧ eventCount "dataChannelOpened" (dataChannelOpen s p : Outcome μ δ).effects = 1
      ∧ (dataChannelOpen s p : Outcome μ δ).completion = Completion.returned
      ∧ (dataChannelOpen s p : Outcome μ δ).state =
          { s with activeDataChannels := s.activeDataChannels.set p true }
      ∧ (dataChannelOpen s p : Outcome μ δ).state.connectedClients = s.connectedClients
      ∧ (dataChannelOpen s p : Outcome μ δ).state.dataChannelSubs = s.dataChannelSubs
      ∧ (dataChannelOpen s p : Outcome μ δ).state.connected = s.connected)
    ∧ ((dataChannelClosed s p : Outcome μ δ).effects =
        [ Effect.logWrite ["Closed data channel from " ++ p],
          Effect.removeEntitiesFromClient p,
          Effect.dispatchEvent "dataChannelClosed" ]
      ∧ eventCount "dataChannelClosed" (dataChannelClosed s p : Outcome μ δ).effects = 1
      ∧ (dataChannelClosed s p : Outcome μ δ).completion = Completion.returned
      ∧ (dataChannelClosed s p : Outcome μ δ).state =
          { s with activeDataChannels := s.activeDataChannels.set p false }
      ∧ (dataChannelClosed s p : Outcome μ δ).state.connectedClients = s.connectedClients
      ∧ (dataChannelClosed s p : Outcome μ δ).state.dataChannelSubs = s.dataChannelSubs
      ∧ (dataChannelClosed s p : Outcome μ δ).state.connected = s.connected) := by
  refine ⟨⟨rfl, ?_, rfl, rfl, rfl, rfl, rfl⟩, ⟨rfl, ?_, rfl, rfl, rfl, rfl, rfl⟩⟩
  · simp [dataChannelOpen, eventCount]
  · simp [dataChannelClosed, eventCount]

theorem not_arrival_of_mem_departures (ks : List String) (e : Effect δ)
    (he : e ∈ ks.flatMap (departureEffects : String → List (Effect δ))) :
    isArrivalEffect e = false := by
  simp only [List.mem_flatMap, departureEffects, List.mem_cons, List.mem_singleton,
    List.not_mem_nil, or_false] at he
  obtain ⟨id, _, h | h | h⟩ := he <;> subst h <;> simp [isArrivalEffect]

theorem not_departure_of_mem_arrivals (ks : List String) (e : Effect δ)
    (he : e ∈ ks.flatMap (arrivalEffects : String → List (Effect δ))) :
    isDepartureEffect e = false := by
  simp only [List.mem_flatMap, arrivalEffects, List.mem_cons, List.mem_singleton,
    List.not_mem_nil, or_false] at he
  obtain ⟨id, _, h | h | h⟩ := he <;> subst h <;> simp [isDepartureEffect]

/-- In a list `D ++ R` where no element of `D` is an arrival action and no element of `R` a
departure action, every departure action stands before every arrival action. -/
theorem departures_before_arrivals (D R : List (Effect δ))
    (hD : ∀ e ∈ D, isArrivalEffect e = false) (hR : ∀ e ∈ R, isDepartureEffect e = false)
    (i j : Nat) (e1 e2 : Effect δ) (h1 : (D ++ R)[i]? = some e1) (h2 : (D ++ R)[j]? = some e2)
    (hd : isDepartureEffect e1 = true) (ha : isArrivalEffect e2 = true) : i < j := by
  have hi : i < D.length := by
    by_contra hcon
    have hle : D.length ≤ i := Nat.le_of_not_lt hcon
    rw [List.getElem?_append_right hle] at h1
    have hmem : e1 ∈ R := List.getElem?_mem h1
    rw [hR e1 hmem] at hd
    exact Bool.noConfusion hd
  have hj : D.length ≤ j := by
    by_contra hcon
    have hlt : j < D.length := Nat.lt_of_not_le hcon
    rw [List.getElem?_append_left hlt] at h2
    have hmem : e2 ∈ D := List.getElem?_mem h2
    rw [hD e2 hmem] at ha
    exact Bool.noConfusion ha
  exact Nat.lt_of_lt_of_le hi hj

/-- C15: in the effects of `occupantsReceived(new)`, every `closeStreamConnection` call and
every 'clientDisconnected' event stands before every `startStreamConnection` call and every
'clientConnected' event.  From `{A}` to `{B}` with no stream yet, the effects are the three of
A's departure followed by the three of B's arrival. -/
theorem C15_departures_before_arrivals (A : Adapter μ) (s : NetworkConnection μ)
    (new : Obj μ) :
    (∀ (i j : Nat) (e1 e2 : Effect δ),
        (occupantsReceived A s new : Outcome μ δ).effects[i]? = some e1 →
        (occupantsReceived A s new : Outcome μ δ).effects[j]? = some e2 →
        isDepartureEffect e1 = true → isArrivalEffect e2 = true → i < j)
    ∧ (occupantsReceived exAdapterNoStream (exSession exOccupantsA) exOccupantsB :
        Outcome Bool String).effects = departureEffects "A" ++ arrivalEffects "B" := by
  refine ⟨?_, by decide⟩
  intro i j e1 e2 h1 h2 hd ha
  rw [occupantsReceived_effects_general] at h1 h2
  refine departures_before_arrivals _ _ (disconnectingLoop_no_arrival A new _).1 ?_
    i j e1 e2 h1 h2 hd ha
  intro e he
  split at he
  · exact not_departure_of_mem_arrivals _ e he
  · exact absurd he (List.not_mem_nil e)

theorem eventCount_map_callback (type : String) (l : List Nat) :
    eventCount type (l.map (Effect.callback : Nat → Effect δ)) = 0 := by
  induction l with
  | nil => rfl
  | cons c rest ih => simp [eventCount, ih]

theorem sendData_no_event (type : String) (s : NetworkConnection μ)
    (toClientId dataType : String) (data : δ) (guaranteed : Bool) :
    eventCount type (sendData s toClientId dataType data guaranteed : Outcome μ δ).effects = 0 := by
  unfold sendData
  split
  · rfl
  · split
    · split <;> rfl
    · rfl

theorem dispatchToHandler_no_event (type : String) (E : Host) (s : NetworkConnection μ)
    (before : List (Effect δ)) (fromClientId dataType : String) (data : δ)
    (hb : eventCount type before = 0) :
    eventCount type
      (dispatchToHandler E s before fromClientId dataType data : Outcome μ δ).effects = 0 := by
  unfold dispatchToHandler
  split
  · simp [eventCount_append, hb, eventCount]
  · split
    · simp [eventCount_append, hb, eventCount]
    · exact hb

theorem receivedData_no_event (type : String) (E : Host) (s : NetworkConnection μ)
    (fromClientId dataType : String) (data : δ) :
    eventCount type
      (receivedData E s fromClientId dataType data : Outcome μ δ).effects = 0 := by
  unfold receivedData
  split
  · exact dispatchToHandler_no_event type E s _ _ _ _ rfl
  · rfl
  · split
    · exact dispatchToHandler_no_event type E s _ _ _ _ rfl
    · rfl

/-- One call dispatches a channel event of the given kind exactly when it is the matching
data-channel call. -/
theorem step_eventCount_channel (isOpen : Bool) (s : NetworkConnection μ) (c : Call μ δ) :
    eventCount (channelEventType isOpen) (step s c).effects = channelCallCount isOpen [c] := by
  cases isOpen <;> cases c with
  | occupantsReceived A occupantList =>
    simp only [step, occupantsReceived_effects_general, eventCount_append]
    rw [(disconnectingLoop_no_arrival A occupantList _).2.2 _ (by decide)]
    split
    · rw [eventCount_flatMap_arrival]
      simp [channelEventType, channelCallCount, Call.channelEvent]
    · simp [channelCallCount, Call.channelEvent, eventCount]
  | checkForDisconnectingClients A o n =>
    simp only [step, checkForDisconnectingClients]
    rw [(disconnectingLoop_no_arrival A n _).2.2 _ (by decide)]
    simp [channelCallCount, Call.channelEvent]
  | checkForConnectingClients A occupantList =>
    simp only [step, checkForConnectingClients, connectingLoop_eq,
      eventCount_flatMap_arrival]
    simp [channelEventType, channelCallCount, Call.channelEvent]
  | connectSuccess clientId =>
    simp only [step, connectSuccess, eventCount_append, eventCount_map_callback]
    simp [channelEventType, channelCallCount, Call.channelEvent, eventCount]
  | onConnect callback =>
    cases hc : s.connected <;>
      simp [step, onConnect, hc, channelEventType, channelCallCount, Call.channelEvent,
        eventCount]
  | sendData toClientId dataType data guaranteed =>
    simp only [step, sendData_no_event]
    simp [channelCallCount, Call.channelEvent]
  | sendDataGuaranteed toClientId dataType data =>
    simp only [step, sendDataGuaranteed, sendData_no_event]
    simp [channelCallCount, Call.channelEvent]
  | receivedData E fromClientId dataType data =>
    simp only [step, receivedData_no_event]
    simp [channelCallCount, Call.channelEvent]
  | subscribeToDataChannel E dataType callback =>
    simp only [step, subscribeToDataChannel_effects]
    split <;> simp [channelCallCount, Call.channelEvent, eventCount]
  | unsubscribeFromDataChannel dataType =>
    simp only [step, unsubscribeFromDataChannel]
    split <;> simp [channelCallCount, Call.channelEvent, eventCount]
  | _ =>
    simp [step, channelEventType, channelCallCount, Call.channelEvent, eventCount, connect,
      connectFailure, dataChannelOpen, dataChannelClosed, broadcastData,
      broadcastDataGuaranteed]

theorem channelCallCount_cons (isOpen : Bool) (c : Call μ δ) (rest : List (Call μ δ)) :
    channelCallCount isOpen (c :: rest) =
      channelCallCount isOpen [c] + channelCallCount isOpen rest := by
  simp only [channelCallCount]
  rw [← List.length_append, ← List.filter_append, ← List.filterMap_append]
  rfl

theorem run_eventCount_channel (isOpen : Bool) (s : NetworkConnection μ)
    (calls : List (Call μ δ)) :
    eventCount (channelEventType isOpen) (run s calls).2 = channelCallCount isOpen calls := by
  induction calls generalizing s with
  | nil => rfl
  | cons c rest ih =>
    simp only [run]
    rw [eventCount_append, step_eventCount_channel, ih, ← channelCallCount_cons]

/-- C16, as stated, fails: in a fresh session to which no occupant list was delivered,
`dataChannelOpen("X")` dispatches a 'dataChannelOpened' event; and after the list `{A}` was
delivered, `dataChannelClosed("X")` dispatches a 'dataChannelClosed' event although X is a
key of no list delivered so far. -/
theorem C16_counterexample :
    ([Call.dataChannelOpen "X"] : List (Call Bool String)).filterMap Call.snapshot = []
    ∧ eventCount "dataChannelOpened"
        (run (exSession Obj.empty) [Call.dataChannelOpen "X"] :
          NetworkConnection Bool × List (Effect String)).2 = 1
    ∧ ([Call.occupantsReceived exAdapterNoStream exOccupantsA, Call.dataChannelClosed "X"] :
        List (Call Bool String)).filterMap Call.snapshot = [exOccupantsA]
    ∧ exOccupantsA.hasOwnProperty "X" = false
    ∧ eventCount "dataChannelClosed"
        (run (exSession Obj.empty)
          [Call.occupantsReceived exAdapterNoStream exOccupantsA, Call.dataChannelClosed "X"] :
          NetworkConnection Bool × List (Effect String)).2 = 1 := by
  decide

/-- C16, amended: in every run, from any session, the number of 'dataChannelOpened' events
is the number of `dataChannelOpen` calls and the number of 'dataChannelClosed' events is the
number of `dataChannelClosed` calls: each such call raises its event once, whatever the
session holds (in particular whether or not its peer is a key of any occupant list delivered
so far), and no other call (occupant list, inbound message, or any other method) raises
one. -/
theorem C16_channel_events_follow_adapter_calls (s : NetworkConnection μ)
    (calls : List (Call μ δ)) (p : String) :
    eventCount "dataChannelOpened" (run s calls).2 = channelCallCount true calls
    ∧ eventCount "dataChannelClosed" (run s calls).2 = channelCallCount false calls
    ∧ eventCount "dataChannelOpened" (dataChannelOpen s p : Outcome μ δ).effects = 1
    ∧ eventCount "dataChannelClosed" (dataChannelClosed s p : Outcome μ δ).effects = 1
    ∧ (∀ c : Call μ δ, c.channelEvent = none →
        eventCount "dataChannelOpened" (step s c).effects = 0
        ∧ eventCount "dataChannelClosed" (step s c).effects = 0) := by
  refine ⟨run_eventCount_channel true s calls, run_eventCount_channel false s calls, ?_, ?_, ?_⟩
  · simp [dataChannelOpen, eventCount]
  · simp [dataChannelClosed, eventCount]
  · intro c hc
    have ho := step_eventCount_channel true s c
    have hcl := step_eventCount_channel false s c
    simp only [channelCallCount, List.filterMap_cons, hc, List.filterMap_nil, List.filter_nil,
      List.length_nil] at ho hcl
    exact ⟨ho, hcl⟩

end ChannelEvents

/-! ## Registry, broadcast and arrival decision -/

section RegistryMore

variable {μ δ : Type}

open NetworkConnection

/-- Where no handler is subscribed under "hasOwnProperty": for a data type `t` that is not
reserved, `unsubscribeFromDataChannel(t)` returns normally with no effect; afterwards `t` is
not an own property of `dataChannelSubs`, so `receivedData(p, t, d)` calls no handler and
writes the error line for an unknown data type; if `t` was not bound the session is
unchanged; the binding of every other data type, and every other field of the session, is as
before. -/
theorem unsubscribe_then_dispatch (E : Host) (s : NetworkConnection μ) (t p : String) (d : δ)
    (ht : isReservedDataType t = false)
    (hclean : s.dataChannelSubs.hasOwnProperty "hasOwnProperty" = false) :
    (unsubscribeFromDataChannel s t : Outcome μ δ).effects = []
    ∧ (unsubscribeFromDataChannel s t : Outcome μ δ).completion = Completion.returned
    ∧ (unsubscribeFromDataChannel s t : Outcome μ δ).state =
        { s with dataChannelSubs := s.dataChannelSubs.delete t }
    ∧ (unsubscribeFromDataChannel s t : Outcome μ δ).state.dataChannelSubs.hasOwnProperty t
        = false
    ∧ (receivedData E (unsubscribeFromDataChannel s t : Outcome μ δ).state p t d :
        Outcome μ δ) =
        { state := (unsubscribeFromDataChannel s t : Outcome μ δ).state
          effects := [Effect.logError ["NetworkConnection@receivedData: " ++ t
            ++ " has not been subscribed to yet. Call subscribeToDataChannel()"]]
          completion := Completion.returned }
    ∧ (s.dataChannelSubs.hasOwnProperty t = false →
        (unsubscribeFromDataChannel s t : Outcome μ δ).state = s)
    ∧ (∀ t2 : String, t2 ≠ t →
        (unsubscribeFromDataChannel s t : Outcome μ δ).state.dataChannelSubs.get t2 =
            s.dataChannelSubs.get t2
        ∧ (unsubscribeFromDataChannel s t : Outcome μ δ).state.dataChannelSubs.hasOwnProperty t2 =
            s.dataChannelSubs.hasOwnProperty t2) := by
  have hst : (unsubscribeFromDataChannel s t : Outcome μ δ).state =
      { s with dataChannelSubs := s.dataChannelSubs.delete t } := by
    simp [unsubscribeFromDataChannel, ht]
  have hno : (unsubscribeFromDataChannel s t : Outcome μ δ).state.dataChannelSubs.hasOwnProperty t
      = false := by
    rw [hst]
    simp [Obj.hasOwnProperty_delete]
  have hclean2 : (unsubscribeFromDataChannel s t :
      Outcome μ δ).state.dataChannelSubs.hasOwnProperty "hasOwnProperty" = false := by
    rw [hst]
    simp [Obj.hasOwnProperty_delete, hclean]
  refine ⟨by simp [unsubscribeFromDataChannel, ht], by simp [unsubscribeFromDataChannel, ht],
    hst, hno, receivedData_of_unbound E _ p t d hclean2 hno, ?_, ?_⟩
  · intro habs
    rw [hst, Obj.delete_of_not_has _ _ habs]
  · intro t2 hne
    rw [hst]
    constructor
    · exact Obj.get_delete_ne _ t t2 hne
    · simp [Obj.hasOwnProperty_delete, hne]

/-- C17, failing input: in the session where handler 0 is subscribed under "hasOwnProperty",
handler 1 is subscribed to "chat" and then "chat" is unsubscribed ("chat" is not reserved and
the call returns silently, its binding removed).  The following `receivedData(P, "chat", d)`
calls handler 0 on "chat", line 198 reaching it instead of the inherited method; when that
handler returns a truthy value the call then throws a TypeError instead of logging the
unknown-type error. -/
theorem C17_failing_input :
    isReservedDataType "chat" = false
    ∧ (unsubscribeFromDataChannel
        (subscribeToDataChannel exHost exSessionShadowSubs "chat" (Handler.callback 1) :
          Outcome Bool String).state "chat" :
        Outcome Bool String).state.dataChannelSubs.hasOwnProperty "chat" = false
    ∧ (receivedData exHost
        (unsubscribeFromDataChannel
          (subscribeToDataChannel exHost exSessionShadowSubs "chat" (Handler.callback 1) :
            Outcome Bool String).state "chat" : Outcome Bool String).state
        "P" "chat" "hello" : Outcome Bool String).effects =
        [Effect.handlerTest (Handler.callback 0) "chat", notSubscribedError "chat"]
    ∧ (receivedData exHostTruthy
        (unsubscribeFromDataChannel
          (subscribeToDataChannel exHost exSessionShadowSubs "chat" (Handler.callback 1) :
            Outcome Bool String).state "chat" : Outcome Bool String).state
        "P" "chat" "hello" : Outcome Bool String).completion =
        Completion.threw "TypeError: this.dataChannelSubs[dataType] is not a function" := by
  decide

/-- C18: in a freshly constructed session, `receivedData(p, 'u', d)` makes exactly one call,
`entities.updateEntity(p, 'u', d)`, and `receivedData(p, 'r', d)` exactly one call,
`entities.removeRemoteEntity(p, 'r', d)`; both return normally, log no error and change
nothing; and `dataChannelSubs` holds these two bindings and no other. -/
theorem C18_reserved_bindings_at_construction (E : Host) (g : Globals) (p : String) (d : δ) :
    (receivedData E (constructor g : NetworkConnection μ) p ReservedDataType.Update d :
        Outcome μ δ) =
        { state := constructor g
          effects := [Effect.handler Handler.updateEntity p ReservedDataType.Update d]
          completion := Completion.returned }
    ∧ (receivedData E (constructor g : NetworkConnection μ) p ReservedDataType.Remove d :
        Outcome μ δ) =
        { state := constructor g
          effects := [Effect.handler Handler.removeRemoteEntity p ReservedDataType.Remove d]
          completion := Completion.returned }
    ∧ (constructor g : NetworkConnection μ).dataChannelSubs.entries =
        [("u", Handler.updateEntity), ("r", Handler.removeRemoteEntity)]
    ∧ (∀ t : String, (constructor g : NetworkConnection μ).dataChannelSubs.hasOwnProperty t = true ↔
        (t = ReservedDataType.Update ∨ t = ReservedDataType.Remove)) := by
  refine ⟨rfl, rfl, rfl, ?_⟩
  intro t
  have hk : (constructor g : NetworkConnection μ).dataChannelSubs.keys = ["u", "r"] := rfl
  simp only [Obj.hasOwnProperty, hk, decide_eq_true_eq, List.mem_cons, List.mem_singleton,
    List.not_mem_nil, or_false, ReservedDataType.Update, ReservedDataType.Remove]

/-- C19: in every session, `broadcastData(tag, payload)` makes exactly one call,
`adapter.broadcastData(tag, payload)`, and `broadcastDataGuaranteed(tag, payload)` exactly one
call, `adapter.broadcastDataGuaranteed(tag, payload)`; both return normally and leave the
session unchanged, and their effects are the same in any two sessions, so they do not depend
on `activeDataChannels`. -/
theorem C19_broadcast_delegates (s s2 : NetworkConnection μ) (tag : String) (d : δ) :
    (broadcastData s tag d : Outcome μ δ) =
        { state := s
          effects := [Effect.adapter (AdapterCall.broadcastData tag d)]
          completion := Completion.returned }
    ∧ (broadcastDataGuaranteed s tag d : Outcome μ δ) =
        { state := s
          effects := [Effect.adapter (AdapterCall.broadcastDataGuaranteed tag d)]
          completion := Completion.returned }
    ∧ (broadcastData s2 tag d : Outcome μ δ).effects = (broadcastData s tag d : Outcome μ δ).effects
    ∧ (broadcastDataGuaranteed s2 tag d : Outcome μ δ).effects =
        (broadcastDataGuaranteed s tag d : Outcome μ δ).effects
    ∧ (exSession Obj.empty).activeDataChannels = Obj.empty
    ∧ (broadcastData (exSession Obj.empty) "chat" "hello" : Outcome Bool String).effects =
        [Effect.adapter (AdapterCall.broadcastData "chat" "hello")] :=
  ⟨rfl, rfl, rfl, rfl, rfl, rfl⟩

theorem mem_arrivals_iff (A : Adapter μ) (new : Obj μ) (id : String) :
    id ∈ (new.entries.filter (startsConnection A)).map Prod.fst ↔
      (id ∈ new.keys ∧ A.getConnectStatus id ≠ ConnectStatus.IS_CONNECTED ∧
        ∃ occupant, new.get id = some occupant ∧ A.shouldStartConnectionTo occupant = true) := by
  simp only [List.mem_map, List.mem_filter, startsConnection, isNewClient, isConnectedTo,
    Bool.and_eq_true, Bool.not_eq_true', beq_eq_false_iff_ne, ne_eq, Obj.keys,
    Obj.get_eq_some_iff]
  constructor
  · rintro ⟨⟨k, occupant⟩, ⟨hmem, hst, hsh⟩, rfl⟩
    exact ⟨⟨(k, occupant), hmem, rfl⟩, hst, occupant, hmem, hsh⟩
  · rintro ⟨_, hst, occupant, hmem, hsh⟩
    exact ⟨(id, occupant), ⟨hmem, hst, hsh⟩, rfl⟩

theorem checkForConnectingClients_effects (A : Adapter μ) (s : NetworkConnection μ)
    (new : Obj μ) :
    (checkForConnectingClients A s new : Outcome μ δ).effects =
      ((new.entries.filter (startsConnection A)).map Prod.fst).flatMap arrivalEffects := by
  simp only [checkForConnectingClients, connectingLoop_eq]

/-- C20: `checkForConnectingClients(new)` has the same effects in any two sessions (so in two
that differ only in `connectedClients`) given the same list and the same adapter answers.  It
calls `startStreamConnection(id)`, each id once and in enumeration order, exactly for the keys
of `new` for which `getConnectStatus(id)` is not `IS_CONNECTED` and
`shouldStartConnectionTo(new[id])` is true, with one 'clientConnected' event per call; and
`occupantsReceived(new)`, for a list with no peer named "hasOwnProperty", opens the same
streams whatever list was accepted before. -/
theorem C20_arrival_decision_ignores_old (A : Adapter μ) (s1 s2 : NetworkConnection μ)
    (old1 old2 new : Obj μ) :
    (checkForConnectingClients A s1 new : Outcome μ δ).effects =
        (checkForConnectingClients A s2 new : Outcome μ δ).effects
    ∧ startCalls (checkForConnectingClients A s1 new : Outcome μ δ).effects =
        (new.entries.filter (startsConnection A)).map Prod.fst
    ∧ (startCalls (checkForConnectingClients A s1 new : Outcome μ δ).effects).Nodup
    ∧ (∀ id : String,
        id ∈ startCalls (checkForConnectingClients A s1 new : Outcome μ δ).effects ↔
          (id ∈ new.keys ∧ A.getConnectStatus id ≠ ConnectStatus.IS_CONNECTED ∧
            ∃ occupant, new.get id = some occupant ∧ A.shouldStartConnectionTo occupant = true))
    ∧ eventCount "clientConnected" (checkForConnectingClients A s1 new : Outcome μ δ).effects =
        (startCalls (checkForConnectingClients A s1 new : Outcome μ δ).effects).length
    ∧ (new.hasOwnProperty "hasOwnProperty" = false →
        startCalls
            (occupantsReceived A { s1 with connectedClients := old1 } new :
              Outcome μ δ).effects =
          startCalls
            (occupantsReceived A { s1 with connectedClients := old2 } new :
              Outcome μ δ).effects
        ∧ eventCount "clientConnected"
            (occupantsReceived A { s1 with connectedClients := old1 } new :
              Outcome μ δ).effects =
          eventCount "clientConnected"
            (occupantsReceived A { s1 with connectedClients := old2 } new :
              Outcome μ δ).effects) := by
  have hsc : startCalls (checkForConnectingClients A s1 new : Outcome μ δ).effects =
      (new.entries.filter (startsConnection A)).map Prod.fst := by
    rw [checkForConnectingClients_effects, startCalls_flatMap_arrival]
  refine ⟨rfl, hsc, ?_, ?_, ?_, ?_⟩
  · rw [hsc]
    exact Obj.nodup_filter_keys _ new.entries new.nodup
  · intro id
    rw [hsc]
    exact mem_arrivals_iff A new id
  · rw [hsc, checkForConnectingClients_effects, eventCount_flatMap_arrival]
    simp
  · intro hclean
    constructor
    · rw [startCalls_occupantsReceived A _ new hclean,
        startCalls_occupantsReceived A _ new hclean]
    · rw [eventCount_occupantsReceived _ A _ new hclean,
        eventCount_occupantsReceived _ A _ new hclean]
      simp

end RegistryMore

end NAF
